import Mathlib

/-!
Verification development for the JoJoFizzy/Raytracer repository.

The Rust source is shallowly embedded over the rational numbers: every
f32 value is modeled as a rational, every f32 operation whose Rust
counterpart is exact-on-rationals (add, sub, mul, div, comparisons) is
the corresponding exact rational operation, and the two transcendental
operations the source uses (f32::sqrt and f32::powf) are threaded
through the development as abstract function parameters sq and powf,
since no settled claim depends on their values.  The cube slab method
(src/shape.rs, Cube::check_axis), which deliberately manufactures IEEE
infinities, is modeled separately at the end of the file over a small
float-with-specials type that carries infinities and NaN.
-/

namespace Raytracer

/-! ### util.rs -/

/-- Source constant util::THRESHOLD_F32 = 0.00001. -/
def THRESHOLD_F32 : ℚ := 1 / 100000

/-- Source util::equals_f32: approximate equality with the global epsilon. -/
def equals_f32 (num1 num2 : ℚ) : Prop := |num1 - num2| < THRESHOLD_F32

instance (a b : ℚ) : Decidable (equals_f32 a b) := by
  unfold equals_f32; infer_instance

/-- Source util::clamp_f32. -/
def clamp_f32 (num low high : ℚ) : ℚ :=
  if num < low then low
  else if num > high then high
  else num

/-- Source util::max_f32: maximum of a vector of floats, None when empty.
The running maximum is replaced only when a strictly larger element shows up. -/
def max_f32 (arr : List ℚ) : Option ℚ :=
  match arr with
  | [] => none
  | a :: rest => some (rest.foldl (fun max x => if x > max then x else max) a)

/-- Source util::min_f32. -/
def min_f32 (arr : List ℚ) : Option ℚ :=
  match arr with
  | [] => none
  | a :: rest => some (rest.foldl (fun min x => if x < min then x else min) a)

/-! ### color.rs -/

/-- Source Color: three f32 channels. -/
@[ext]
structure Color where
  r : ℚ
  g : ℚ
  b : ℚ
deriving DecidableEq, Repr

def Color.new (r g b : ℚ) : Color := ⟨r, g, b⟩

instance : Add Color := ⟨fun c d => ⟨c.r + d.r, c.g + d.g, c.b + d.b⟩⟩

instance : Sub Color := ⟨fun c d => ⟨c.r - d.r, c.g - d.g, c.b - d.b⟩⟩

/-- Color * f32 (component-wise scaling). -/
instance : HMul Color ℚ Color := ⟨fun c s => ⟨c.r * s, c.g * s, c.b * s⟩⟩

/-- Color * Color (component-wise). -/
instance : Mul Color := ⟨fun c d => ⟨c.r * d.r, c.g * d.g, c.b * d.b⟩⟩

/-- Rust `as u32` truncation of a clamped nonnegative float. -/
def truncToNat (q : ℚ) : ℕ := (Int.floor q).toNat

/-- Source Color::rgb: clamp channels to the unit interval, scale by 255.999,
truncate, and pack as 0x00RRGGBB. -/
def Color.rgb (c : Color) : ℕ :=
  let r := clamp_f32 c.r 0 1
  let g := clamp_f32 c.g 0 1
  let b := clamp_f32 c.b 0 1
  let r := truncToNat ((255999 : ℚ) / 1000 * r)
  let g := truncToNat ((255999 : ℚ) / 1000 * g)
  let b := truncToNat ((255999 : ℚ) / 1000 * b)
  (r <<< 16) ||| (g <<< 8) ||| b

/-! ### geometry.rs: Vec4 -/

/-- Source Vec4: four f32 elements, w = 1 marks a point, w = 0 a direction. -/
@[ext]
structure Vec4 where
  x : ℚ
  y : ℚ
  z : ℚ
  w : ℚ
deriving DecidableEq, Repr

def Vec4.point (x y z : ℚ) : Vec4 := ⟨x, y, z, 1⟩

def Vec4.vector (x y z : ℚ) : Vec4 := ⟨x, y, z, 0⟩

def Vec4.raw (x y z w : ℚ) : Vec4 := ⟨x, y, z, w⟩

instance : Add Vec4 := ⟨fun a b => Vec4.raw (a.x + b.x) (a.y + b.y) (a.z + b.z) (a.w + b.w)⟩

instance : Sub Vec4 := ⟨fun a b => Vec4.raw (a.x - b.x) (a.y - b.y) (a.z - b.z) (a.w - b.w)⟩

instance : Neg Vec4 := ⟨fun a => Vec4.raw (-a.x) (-a.y) (-a.z) (-a.w)⟩

/-- Vec4 * f32 scaling. -/
instance : HMul Vec4 ℚ Vec4 := ⟨fun a s => Vec4.raw (a.x * s) (a.y * s) (a.z * s) (a.w * s)⟩

/-- Vec4 / f32 scaling. -/
instance : HDiv Vec4 ℚ Vec4 := ⟨fun a s => Vec4.raw (a.x / s) (a.y / s) (a.z / s) (a.w / s)⟩

def Vec4.dot (a b : Vec4) : ℚ := a.x * b.x + a.y * b.y + a.z * b.z + a.w * b.w

def Vec4.cross (a b : Vec4) : Vec4 :=
  Vec4.vector (a.y * b.z - a.z * b.y) (a.z * b.x - a.x * b.z) (a.x * b.y - a.y * b.x)

def Vec4.reflect (v normal : Vec4) : Vec4 := v - normal * (2 : ℚ) * v.dot normal

/-- Source Vec4::magnitude; f32::sqrt is the abstract parameter sq. -/
def Vec4.magnitude (sq : ℚ → ℚ) (v : Vec4) : ℚ :=
  sq (v.x * v.x + v.y * v.y + v.z * v.z + v.w * v.w)

def Vec4.normalize (sq : ℚ → ℚ) (v : Vec4) : Vec4 :=
  let magnitude := v.magnitude sq
  Vec4.raw (v.x / magnitude) (v.y / magnitude) (v.z / magnitude) (v.w / magnitude)

/-- Source PartialEq for Vec4: component-wise approximate equality. -/
def Vec4.approxEq (a b : Vec4) : Prop :=
  equals_f32 a.x b.x ∧ equals_f32 a.y b.y ∧ equals_f32 a.z b.z ∧ equals_f32 a.w b.w

/-! ### geometry.rs: matrices -/

/-- Source Matrix2x2: a flat array of 4 floats, row major. -/
structure Matrix2x2 where
  mat : List ℚ
deriving DecidableEq, Repr

def Matrix2x2.get (m : Matrix2x2) (r c : ℕ) : ℚ := m.mat.getD (c + r * 2) 0

def Matrix2x2.determinant (m : Matrix2x2) : ℚ :=
  m.mat.getD 0 0 * m.mat.getD 3 0 - m.mat.getD 1 0 * m.mat.getD 2 0

/-- Source Matrix3x3: a flat array of 9 floats, row major. -/
structure Matrix3x3 where
  mat : List ℚ
deriving DecidableEq, Repr

def Matrix3x3.get (m : Matrix3x3) (r c : ℕ) : ℚ := m.mat.getD (c + r * 3) 0

/-- Source Matrix3x3::submatrix: drop the given row and column, collecting
the remaining entries in row-major order (the source's double loop). -/
def Matrix3x3.submatrix (m : Matrix3x3) (row col : ℕ) : Matrix2x2 :=
  ⟨([0, 1, 2].flatMap fun r =>
     ([0, 1, 2].filterMap fun c =>
       if r ≠ row ∧ c ≠ col then some (m.get r c) else none))⟩

def Matrix3x3.minor (m : Matrix3x3) (row col : ℕ) : ℚ :=
  (m.submatrix row col).determinant

def Matrix3x3.cofactor (m : Matrix3x3) (row col : ℕ) : ℚ :=
  let determinant := m.minor row col
  if (row + col) % 2 ≠ 0 then -determinant else determinant

def Matrix3x3.determinant (m : Matrix3x3) : ℚ :=
  m.get 0 0 * m.cofactor 0 0 + m.get 0 1 * m.cofactor 0 1 + m.get 0 2 * m.cofactor 0 2

/-- Source Matrix4x4: a flat array of 16 floats, row major. -/
structure Matrix4x4 where
  mat : List ℚ
deriving DecidableEq, Repr

def Matrix4x4.new (mat : List ℚ) : Matrix4x4 := ⟨mat⟩

def Matrix4x4.get (m : Matrix4x4) (r c : ℕ) : ℚ := m.mat.getD (c + r * 4) 0

def Matrix4x4.identity : Matrix4x4 :=
  ⟨[1, 0, 0, 0,
    0, 1, 0, 0,
    0, 0, 1, 0,
    0, 0, 0, 1]⟩

def Matrix4x4.transpose (m : Matrix4x4) : Matrix4x4 :=
  ⟨[m.get 0 0, m.get 1 0, m.get 2 0, m.get 3 0,
    m.get 0 1, m.get 1 1, m.get 2 1, m.get 3 1,
    m.get 0 2, m.get 1 2, m.get 2 2, m.get 3 2,
    m.get 0 3, m.get 1 3, m.get 2 3, m.get 3 3]⟩

/-- Source Matrix4x4::submatrix: drop the given row and column. -/
def Matrix4x4.submatrix (m : Matrix4x4) (row col : ℕ) : Matrix3x3 :=
  ⟨([0, 1, 2, 3].flatMap fun r =>
     ([0, 1, 2, 3].filterMap fun c =>
       if r ≠ row ∧ c ≠ col then some (m.get r c) else none))⟩

def Matrix4x4.minor (m : Matrix4x4) (row col : ℕ) : ℚ :=
  (m.submatrix row col).determinant

def Matrix4x4.cofactor (m : Matrix4x4) (row col : ℕ) : ℚ :=
  let determinant := m.minor row col
  if (row + col) % 2 ≠ 0 then -determinant else determinant

def Matrix4x4.determinant (m : Matrix4x4) : ℚ :=
  m.get 0 0 * m.cofactor 0 0 + m.get 0 1 * m.cofactor 0 1 +
  m.get 0 2 * m.cofactor 0 2 + m.get 0 3 * m.cofactor 0 3

/-- Source Matrix4x4::is_invertible. -/
def Matrix4x4.is_invertible (m : Matrix4x4) : Prop := ¬ equals_f32 m.determinant 0

instance (m : Matrix4x4) : Decidable m.is_invertible := by
  unfold Matrix4x4.is_invertible; infer_instance

/-- Source Matrix4x4::invert.  The source panics when the matrix fails its
is_invertible check; this model is total (rational division by zero yields
zero), and every settled claim either restricts to invertible matrices or
never inspects the value produced under a failed guard. -/
def Matrix4x4.invert (m : Matrix4x4) : Matrix4x4 :=
  let det := m.determinant
  let cofactor_matrix := Matrix4x4.new
    [m.cofactor 0 0 / det, m.cofactor 0 1 / det, m.cofactor 0 2 / det, m.cofactor 0 3 / det,
     m.cofactor 1 0 / det, m.cofactor 1 1 / det, m.cofactor 1 2 / det, m.cofactor 1 3 / det,
     m.cofactor 2 0 / det, m.cofactor 2 1 / det, m.cofactor 2 2 / det, m.cofactor 2 3 / det,
     m.cofactor 3 0 / det, m.cofactor 3 1 / det, m.cofactor 3 2 / det, m.cofactor 3 3 / det]
  cofactor_matrix.transpose

/-- Source Mul for Matrix4x4 (the explicit 16-entry product). -/
def Matrix4x4.mul (m rhs : Matrix4x4) : Matrix4x4 :=
    ⟨[m.get 0 0 * rhs.get 0 0 + m.get 0 1 * rhs.get 1 0 + m.get 0 2 * rhs.get 2 0 + m.get 0 3 * rhs.get 3 0,
      m.get 0 0 * rhs.get 0 1 + m.get 0 1 * rhs.get 1 1 + m.get 0 2 * rhs.get 2 1 + m.get 0 3 * rhs.get 3 1,
      m.get 0 0 * rhs.get 0 2 + m.get 0 1 * rhs.get 1 2 + m.get 0 2 * rhs.get 2 2 + m.get 0 3 * rhs.get 3 2,
      m.get 0 0 * rhs.get 0 3 + m.get 0 1 * rhs.get 1 3 + m.get 0 2 * rhs.get 2 3 + m.get 0 3 * rhs.get 3 3,
      m.get 1 0 * rhs.get 0 0 + m.get 1 1 * rhs.get 1 0 + m.get 1 2 * rhs.get 2 0 + m.get 1 3 * rhs.get 3 0,
      m.get 1 0 * rhs.get 0 1 + m.get 1 1 * rhs.get 1 1 + m.get 1 2 * rhs.get 2 1 + m.get 1 3 * rhs.get 3 1,
      m.get 1 0 * rhs.get 0 2 + m.get 1 1 * rhs.get 1 2 + m.get 1 2 * rhs.get 2 2 + m.get 1 3 * rhs.get 3 2,
      m.get 1 0 * rhs.get 0 3 + m.get 1 1 * rhs.get 1 3 + m.get 1 2 * rhs.get 2 3 + m.get 1 3 * rhs.get 3 3,
      m.get 2 0 * rhs.get 0 0 + m.get 2 1 * rhs.get 1 0 + m.get 2 2 * rhs.get 2 0 + m.get 2 3 * rhs.get 3 0,
      m.get 2 0 * rhs.get 0 1 + m.get 2 1 * rhs.get 1 1 + m.get 2 2 * rhs.get 2 1 + m.get 2 3 * rhs.get 3 1,
      m.get 2 0 * rhs.get 0 2 + m.get 2 1 * rhs.get 1 2 + m.get 2 2 * rhs.get 2 2 + m.get 2 3 * rhs.get 3 2,
      m.get 2 0 * rhs.get 0 3 + m.get 2 1 * rhs.get 1 3 + m.get 2 2 * rhs.get 2 3 + m.get 2 3 * rhs.get 3 3,
      m.get 3 0 * rhs.get 0 0 + m.get 3 1 * rhs.get 1 0 + m.get 3 2 * rhs.get 2 0 + m.get 3 3 * rhs.get 3 0,
      m.get 3 0 * rhs.get 0 1 + m.get 3 1 * rhs.get 1 1 + m.get 3 2 * rhs.get 2 1 + m.get 3 3 * rhs.get 3 1,
      m.get 3 0 * rhs.get 0 2 + m.get 3 1 * rhs.get 1 2 + m.get 3 2 * rhs.get 2 2 + m.get 3 3 * rhs.get 3 2,
      m.get 3 0 * rhs.get 0 3 + m.get 3 1 * rhs.get 1 3 + m.get 3 2 * rhs.get 2 3 + m.get 3 3 * rhs.get 3 3]⟩

instance : Mul Matrix4x4 := ⟨Matrix4x4.mul⟩

/-- Source Mul(Vec4) for Matrix4x4. -/
instance : HMul Matrix4x4 Vec4 Vec4 :=
  ⟨fun m v =>
    Vec4.raw
      (m.get 0 0 * v.x + m.get 0 1 * v.y + m.get 0 2 * v.z + m.get 0 3 * v.w)
      (m.get 1 0 * v.x + m.get 1 1 * v.y + m.get 1 2 * v.z + m.get 1 3 * v.w)
      (m.get 2 0 * v.x + m.get 2 1 * v.y + m.get 2 2 * v.z + m.get 2 3 * v.w)
      (m.get 3 0 * v.x + m.get 3 1 * v.y + m.get 3 2 * v.z + m.get 3 3 * v.w)⟩

/-- Source named constructor Matrix4x4::translation. -/
def Matrix4x4.translation (x y z : ℚ) : Matrix4x4 :=
  ⟨[1, 0, 0, x,
    0, 1, 0, y,
    0, 0, 1, z,
    0, 0, 0, 1]⟩

/-- Source named constructor Matrix4x4::scale. -/
def Matrix4x4.scale (x y z : ℚ) : Matrix4x4 :=
  ⟨[x, 0, 0, 0,
    0, y, 0, 0,
    0, 0, z, 0,
    0, 0, 0, 1]⟩

/-- Source PartialEq for Matrix4x4: the 16 flat entries are compared with
equals_f32 pairwise. -/
def Matrix4x4.approxEq (a b : Matrix4x4) : Prop :=
  ∀ i < 16, equals_f32 (a.mat.getD i 0) (b.mat.getD i 0)

instance (a b : Matrix4x4) : Decidable (a.approxEq b) := by
  unfold Matrix4x4.approxEq; infer_instance

/-! ### ray.rs -/

/-- Source Ray: origin and direction. -/
structure Ray where
  origin : Vec4
  direction : Vec4
deriving DecidableEq, Repr

def Ray.new (origin direction : Vec4) : Ray := ⟨origin, direction⟩

def Ray.at (r : Ray) (t : ℚ) : Vec4 := r.origin + r.direction * t

def Ray.reflect (r : Ray) (normalv : Vec4) : Vec4 := r.direction.reflect normalv

def Ray.transform (r : Ray) (matrix : Matrix4x4) : Ray :=
  ⟨matrix * r.origin, matrix * r.direction⟩

/-! ### pattern.rs

The source's trait objects become a closed inductive: the five pattern
variants that implement the Pattern trait. -/

/-- Rust `as i32` truncation of a float (toward zero). -/
def truncToInt (q : ℚ) : ℤ := if q ≥ 0 then Int.floor q else -Int.floor (-q)

inductive Pattern where
  | stripe (primary_color secondary_color : Color) (transform : Matrix4x4)
  | gradient (primary_color secondary_color : Color) (transform : Matrix4x4)
  | ringp (primary_color secondary_color : Color) (transform : Matrix4x4)
  | checkered (primary_color secondary_color : Color) (transform : Matrix4x4)
  | blended (first_pattern second_pattern : Pattern) (transform : Matrix4x4)
deriving DecidableEq, Repr

def Pattern.transform : Pattern → Matrix4x4
  | .stripe _ _ t => t
  | .gradient _ _ t => t
  | .ringp _ _ t => t
  | .checkered _ _ t => t
  | .blended _ _ t => t

/-- Source Pattern::color_at for each variant.  Rust's i32 `% 2 == 0` parity
test agrees with Int.emod parity, and the ring pattern's f32::sqrt is the
abstract parameter sq. -/
def Pattern.color_at (sq : ℚ → ℚ) : Pattern → Vec4 → Color
  | .stripe primary secondary _, point =>
      if Int.floor point.x % 2 = 0 then primary else secondary
  | .gradient primary secondary _, point =>
      let distance := secondary - primary
      let fraction := point.x - Int.floor point.x
      primary + distance * fraction
  | .ringp primary secondary _, point =>
      if truncToInt (sq (point.x * point.x + point.z * point.z)) % 2 = 0
      then primary else secondary
  | .checkered primary secondary _, point =>
      if truncToInt ((Int.floor point.x + Int.floor point.y + Int.floor point.z : ℤ) : ℚ) % 2 = 0
      then primary else secondary
  | .blended first second _, point =>
      (first.color_at sq point + second.color_at sq point) * (1 / 2 : ℚ)

/-! ### light.rs -/

/-- Source Light: a point light. -/
structure Light where
  id : ℕ
  intensity : Color
  position : Vec4
deriving DecidableEq, Repr

def Light.point_light (position : Vec4) (intensity : Color) (id : ℕ := 0) : Light :=
  ⟨id, intensity, position⟩

/-! ### material.rs (data) -/

/-- Source Material. -/
structure Material where
  color : Color
  ambient : ℚ
  diffuse : ℚ
  specular : ℚ
  shininess : ℚ
  reflective : ℚ
  transparency : ℚ
  refraction : ℚ
  pattern : Option Pattern
deriving DecidableEq, Repr

def Material.new (color : Color) (ambient diffuse specular shininess reflective transparency refraction : ℚ) (pattern : Option Pattern) : Material :=
  ⟨color, ambient, diffuse, specular, shininess, reflective, transparency, refraction, pattern⟩

/-- Source Default for Material. -/
def Material.default : Material :=
  ⟨Color.new 1 1 1, 1/10, 9/10, 9/10, 200, 0, 0, 1, none⟩

/-! ### shape.rs (data)

The source's `dyn Shape` trait objects become a closed sum of the shape
variants the settled claims exercise (sphere, plane, cylinder); the Uuid
identity becomes a stable natural number.  The cube is modeled separately
over the float-with-specials type at the end of this file, because its
slab method (check_axis) deliberately multiplies by f32::INFINITY, which
has no rational counterpart. -/

inductive ShapeKind where
  | sphere
  | plane
  | cylinder (minimum maximum : ℚ) (closed : Bool)
deriving DecidableEq, Repr

structure Shape where
  id : ℕ
  transform : Matrix4x4
  material : Material
  kind : ShapeKind
deriving DecidableEq, Repr

/-- Source Sphere::glass_sphere material (on top of Material::default). -/
def glass_sphere_material : Material :=
  { Material.default with transparency := 1, refraction := 3/2, reflective := 4/5, specular := 1, shininess := 300 }

/-! ### Pattern/Material functions needing Shape -/

/-- Source Pattern::color_at_object (identical across the five variants):
map through the shape's inverse transform, then the pattern's transform. -/
def Pattern.color_at_object (sq : ℚ → ℚ) (p : Pattern) (shape : Shape) (world_point : Vec4) : Color :=
  let object_point := shape.transform.invert * world_point
  let pattern_point := p.transform * object_point
  p.color_at sq pattern_point

/-- Source Material::lighting.  f32::sqrt and f32::powf are the abstract
parameters sq and powf. -/
def Material.lighting (sq : ℚ → ℚ) (powf : ℚ → ℚ → ℚ) (m : Material) (object : Shape) (light : Light) (point eyev normalv : Vec4) (in_shadow : Bool) : Color :=
  let color := match m.pattern with
    | some pattern => pattern.color_at_object sq object point
    | none => m.color
  let effective_color := color * light.intensity
  let lightv := (light.position - point).normalize sq
  let ambient := effective_color * m.ambient
  if in_shadow then ambient
  else
    let light_dot_normal := lightv.dot normalv
    let (diffuse, specular) :=
      if light_dot_normal < 0 then (Color.new 0 0 0, Color.new 0 0 0)
      else
        let diffuse := effective_color * m.diffuse * light_dot_normal
        let reflectv := (-lightv).reflect normalv
        let reflect_dot_eye := reflectv.dot eyev
        if reflect_dot_eye ≤ 0 then (diffuse, Color.new 0 0 0)
        else (diffuse, light.intensity * m.specular * powf reflect_dot_eye m.shininess)
    ambient + diffuse + specular

/-! ### intersection.rs (data) and shape.rs (behavior) -/

/-- Source Intersection: shape reference, parametric distance t, and the
barycentric u/v context (unused by the embedded shape variants). -/
structure Intersection where
  object : Shape
  t : ℚ
  u : ℚ
  v : ℚ
deriving DecidableEq, Repr

def Intersection.new (object : Shape) (t : ℚ) : Intersection := ⟨object, t, 0, 0⟩

def Intersection.from_uv (object : Shape) (t u v : ℚ) : Intersection := ⟨object, t, u, v⟩

/-- Source Cylinder::check_cap. -/
def Cylinder.check_cap (ray : Ray) (t : ℚ) : Prop :=
  let x := ray.origin.x + t * ray.direction.x
  let z := ray.origin.z + t * ray.direction.z
  x * x + z * z ≤ 1

instance (ray : Ray) (t : ℚ) : Decidable (Cylinder.check_cap ray t) := by
  unfold Cylinder.check_cap; infer_instance

/-- Source Cylinder::intersect_caps. -/
def Cylinder.intersect_caps (s : Shape) (minimum maximum : ℚ) (closed : Bool) (ray : Ray) : List Intersection :=
  if ¬ closed ∨ equals_f32 ray.direction.y 0 then []
  else
    let t1 := (minimum - ray.origin.y) / ray.direction.y
    let first := if Cylinder.check_cap ray t1 then [Intersection.new s t1] else []
    let t2 := (maximum - ray.origin.y) / ray.direction.y
    first ++ (if Cylinder.check_cap ray t2 then [Intersection.new s t2] else [])

/-- Source local_intersect for each embedded shape variant (Sphere, Plane,
Cylinder impls of the Shape trait).  f32::sqrt is the parameter sq. -/
def Shape.local_intersect (sq : ℚ → ℚ) (s : Shape) (ray : Ray) : List Intersection :=
  match s.kind with
  | .sphere =>
    let sphere_to_ray := ray.origin - Vec4.point 0 0 0
    let a := ray.direction.dot ray.direction
    let b := 2 * ray.direction.dot sphere_to_ray
    let c := sphere_to_ray.dot sphere_to_ray - 1
    let discriminant := b * b - 4 * a * c
    if discriminant < 0 then []
    else
      [Intersection.new s ((-b - sq discriminant) / (2 * a)),
       Intersection.new s ((-b + sq discriminant) / (2 * a))]
  | .plane =>
    if |ray.direction.y| < THRESHOLD_F32 then []
    else [Intersection.new s (-ray.origin.y / ray.direction.y)]
  | .cylinder minimum maximum closed =>
    let a := ray.direction.x ^ 2 + ray.direction.z ^ 2
    if equals_f32 a 0 then []
    else
      let b := 2 * ray.origin.x * ray.direction.x + 2 * ray.origin.z * ray.direction.z
      let c := ray.origin.x ^ 2 + ray.origin.z ^ 2 - 1
      let disc := b * b - 4 * a * c
      if disc < 0 then []
      else
        let r0 := (-b - sq disc) / (2 * a)
        let r1 := (-b + sq disc) / (2 * a)
        let t0 := if r0 > r1 then r1 else r0
        let t1 := if r0 > r1 then r0 else r1
        let y0 := ray.origin.y + t0 * ray.direction.y
        let xs0 := if minimum < y0 ∧ y0 < maximum then [Intersection.new s t0] else []
        let y1 := ray.origin.y + t1 * ray.direction.y
        let xs1 := if minimum < y1 ∧ y1 < maximum then [Intersection.new s t1] else []
        xs0 ++ xs1 ++ Cylinder.intersect_caps s minimum maximum closed ray

/-- Source local_normal_at for each embedded shape variant.  The hit context
argument is unused by these variants, as in the source; the sphere impl
normalizes its result (f32::sqrt is the parameter sq). -/
def Shape.local_normal_at (sq : ℚ → ℚ) (s : Shape) (local_point : Vec4) (_hit : Intersection) : Vec4 :=
  match s.kind with
  | .sphere =>
    let local_normal := local_point - Vec4.point 0 0 0
    local_normal.normalize sq
  | .plane => Vec4.vector 0 1 0
  | .cylinder _minimum maximum _closed =>
    let dist := local_point.x ^ 2 + local_point.z ^ 2
    if dist < 1 ∧ local_point.y ≥ maximum - THRESHOLD_F32 then
      Vec4.vector 0 1 0
    else if dist < 1 ∧ local_point.y ≥ maximum - THRESHOLD_F32 then
      Vec4.vector 0 (-1) 0
    else
      Vec4.vector local_point.x 0 local_point.z

/-- Source world_normal_at, identical across all Shape impls: map the world
point into object space, query the local normal, map back through the
inverse transpose, force w to zero, normalize. -/
def Shape.world_normal_at (sq : ℚ → ℚ) (s : Shape) (world_point : Vec4) (i : Intersection) : Vec4 :=
  let local_point := s.transform.invert * world_point
  let local_normal := s.local_normal_at sq local_point i
  let world_normal : Vec4 := s.transform.invert.transpose * local_normal
  let world_normal := Vec4.vector world_normal.x world_normal.y world_normal.z
  world_normal.normalize sq

/-! ### intersection.rs (behavior) -/

/-- Source Intersection::intersect: transform the ray by the shape's inverse
transform and delegate to local_intersect. -/
def Intersection.intersect (sq : ℚ → ℚ) (shape : Shape) (ray : Ray) : List Intersection :=
  let ray := ray.transform shape.transform.invert
  shape.local_intersect sq ray

/-- Source Intersection::hit takes `&mut Vec<Intersection>`: it retains the
intersections with t > 0, sorts ascending by t in place, and returns the
front element (None when nothing remains).  The mutation is modeled by
returning the post-call vector alongside the result. -/
def Intersection.hit (inter : List Intersection) : Option Intersection × List Intersection :=
  let inter := inter.filter (fun x => decide (x.t > 0))
  let inter := inter.mergeSort (fun a b => decide (a.t ≤ b.t))
  if inter.length < 1 then (none, inter)
  else (inter[0]?, inter)

/-- The refraction stack walk inside Intersection::prepare_computations,
one source loop iteration removing the first identity-matched shape from
the container (the source's indexed scan-remove-break inner loop). -/
def removeFirstById : List Shape → ℕ → List Shape
  | [], _ => []
  | s :: rest, i => if s.id = i then rest else s :: removeFirstById rest i

/-- The n1/n2 loop of Intersection::prepare_computations: walk the
intersection list keeping the container of currently-entered shapes,
stopping at the intersection matching self by shape identity and t.
The accumulator carries the (n1, n2) pair the source's mutable locals
hold when the list is exhausted without the stop condition firing. -/
def n1n2Walk (self : Intersection) : List Intersection → List Shape → ℚ × ℚ → ℚ × ℚ
  | [], _, acc => acc
  | inter :: rest, stack, _ =>
    let n1 := match stack.getLast? with
      | none => 1
      | some top => top.material.refraction
    let object_in_stack := stack.any fun sh => sh.id = inter.object.id
    let stack2 := if object_in_stack then removeFirstById stack inter.object.id
                  else stack ++ [inter.object]
    let n2 := match stack2.getLast? with
      | none => 1
      | some top => top.material.refraction
    if self.object.id = inter.object.id ∧ self.t = inter.t then (n1, n2)
    else n1n2Walk self rest stack2 (n1, n2)

/-- Source Comp (prepared shading computation). -/
structure Comp where
  t : ℚ
  object : Shape
  point : Vec4
  eyev : Vec4
  normalv : Vec4
  reflectv : Vec4
  n1 : ℚ
  n2 : ℚ
  inside : Bool
  over_point : Vec4
  under_point : Vec4
deriving DecidableEq, Repr

/-- Source Comp::new: flip the normal and set the inside flag when it faces
away from the eye, then offset over_point and under_point by the epsilon. -/
def Comp.new (t : ℚ) (object : Shape) (point eyev normalv reflectv : Vec4) (n1 n2 : ℚ) : Comp :=
  let inside := decide (normalv.dot eyev < 0)
  let normalv := if normalv.dot eyev < 0 then -normalv else normalv
  let over_point := point + normalv * THRESHOLD_F32
  let under_point := point - normalv * THRESHOLD_F32
  ⟨t, object, point, eyev, normalv, reflectv, n1, n2, inside, over_point, under_point⟩

/-- Source Intersection::prepare_computations.  The n1/n2 loop runs only
when the xs argument is Some; the subsequent `xs.unwrap()[0]` panics when
xs is None or the list is empty, modeled by returning none. -/
def Intersection.prepare_computations (sq : ℚ → ℚ) (self : Intersection) (ray : Ray) (xs : Option (List Intersection)) : Option Comp :=
  let n12 := match xs with
    | some l => n1n2Walk self l [] (1, 1)
    | none => (1, 1)
  match xs with
  | none => none
  | some [] => none
  | some (first :: _) =>
    let normalv := self.object.world_normal_at sq (ray.at self.t) first
    some (Comp.new self.t self.object (ray.at self.t) (-ray.direction) normalv
      (ray.reflect normalv) n12.1 n12.2)

/-- Source Comp::schlick.  The source's early `return 1.0` on total internal
reflection makes the tail expression appear once per branch here. -/
def Comp.schlick (sq : ℚ → ℚ) (c : Comp) : ℚ :=
  let cos := c.eyev.dot c.normalv
  if c.n1 > c.n2 then
    let n := c.n1 / c.n2
    let sin2_t := n * n * (1 - cos * cos)
    if sin2_t > 1 then 1
    else
      let cos_t := sq (1 - sin2_t)
      let r0 := ((c.n1 - c.n2) / (c.n1 + c.n2)) ^ 2
      r0 + (1 - r0) * (1 - cos_t) ^ 5
  else
    let r0 := ((c.n1 - c.n2) / (c.n1 + c.n2)) ^ 2
    r0 + (1 - r0) * (1 - cos) ^ 5

/-! ### world.rs -/

/-- Source World: objects and lights. -/
structure World where
  objects : List Shape
  lights : List Light
deriving DecidableEq, Repr

/-- Source World::intersect_world: concatenate every shape's intersections
and sort ascending by t.  The source sorts with partial_cmp().unwrap(),
total on the rationals (its NaN panic is the subject of claim C10 and is
modeled in the float-with-specials section below). -/
def World.intersect_world (sq : ℚ → ℚ) (w : World) (ray : Ray) : List Intersection :=
  let xs := w.objects.flatMap fun shape => Intersection.intersect sq shape ray
  xs.mergeSort fun a b => decide (a.t ≤ b.t)

/-- Source World::is_shadowed: the early-return loop over the lights. -/
def World.is_shadowed (sq : ℚ → ℚ) (w : World) (point : Vec4) : Bool :=
  w.lights.any fun light =>
    let v := light.position - point
    let distance := v.magnitude sq
    let direction := v.normalize sq
    let ray := Ray.new point direction
    let inter := w.intersect_world sq ray
    match (Intersection.hit inter).1 with
    | some h => decide (h.t < distance)
    | none => false

/-- The shadow test and per-light summation at the head of
World::shade_hit (the source inlines this block before blending). -/
def World.surfaceColor (sq : ℚ → ℚ) (powf : ℚ → ℚ → ℚ) (w : World) (comp : Comp) : Color :=
  let shadowed := if comp.object.material.transparency ≥ 1 then false
                  else w.is_shadowed sq comp.over_point
  w.lights.foldl
    (fun color light =>
      color + comp.object.material.lighting sq powf comp.object light
        comp.over_point comp.eyev comp.normalv shadowed)
    (Color.new 0 0 0)

mutual

/-- Source World::color_at: intersect, clone the list for the refraction
stack, take the hit, prepare the computation, shade; black when there is
no hit.  In the model the clone is the unmodified pre-hit list passed to
prepare_computations (hit is pure here and returns the mutated vector as
its second component).  The inner none branch is unreachable: the cloned
list is nonempty whenever hit returns Some. -/
def World.color_at (sq : ℚ → ℚ) (powf : ℚ → ℚ → ℚ) (w : World) (ray : Ray) (remaining : ℕ) : Color :=
  let intersection := w.intersect_world sq ray
  let xs := intersection
  match (Intersection.hit intersection).1 with
  | some hitI =>
    match hitI.prepare_computations sq ray (some xs) with
    | some comp => World.shade_hit sq powf w comp remaining
    | none => Color.new 0 0 0
  | none => Color.new 0 0 0
termination_by (remaining, 2)

/-- Source World::shade_hit: per-light surface color, then the reflected
and refracted contributions, Schlick-blended when the material is both
reflective and transparent. -/
def World.shade_hit (sq : ℚ → ℚ) (powf : ℚ → ℚ → ℚ) (w : World) (comp : Comp) (remaining : ℕ) : Color :=
  let color := World.surfaceColor sq powf w comp
  let reflected := World.reflected_color sq powf w comp remaining
  let refracted := World.refracted_color sq powf w comp remaining
  let material := comp.object.material
  if material.reflective > 0 ∧ material.transparency > 0 then
    let reflectance := comp.schlick sq
    color + reflected * reflectance + refracted * (1 - reflectance)
  else
    color + reflected + refracted
termination_by (remaining, 1)

/-- Source World::reflected_color. -/
def World.reflected_color (sq : ℚ → ℚ) (powf : ℚ → ℚ → ℚ) (w : World) (comp : Comp) (remaining : ℕ) : Color :=
  if comp.object.material.reflective = 0 ∨ remaining = 0 then Color.new 0 0 0
  else
    let reflect_ray := Ray.new comp.over_point comp.reflectv
    let color := World.color_at sq powf w reflect_ray (remaining - 1)
    color * comp.object.material.reflective
termination_by (remaining, 0)

/-- Source World::refracted_color. -/
def World.refracted_color (sq : ℚ → ℚ) (powf : ℚ → ℚ → ℚ) (w : World) (comp : Comp) (remaining : ℕ) : Color :=
  if comp.object.material.transparency = 0 ∨ remaining = 0 then Color.new 0 0 0
  else
    let n_ratio := comp.n1 / comp.n2
    let cos_i := comp.eyev.dot comp.normalv
    let sin2_t := n_ratio * n_ratio * (1 - cos_i * cos_i)
    if sin2_t > 1 then Color.new 0 0 0
    else
      let cos_t := sq (1 - sin2_t)
      let direction := comp.normalv * (n_ratio * cos_i - cos_t) - comp.eyev * n_ratio
      let refract_ray := Ray.new comp.under_point direction
      World.color_at sq powf w refract_ray (remaining - 1) * comp.object.material.transparency
termination_by (remaining, 0)

end

/-! ### canvas.rs -/

/-- Source Canvas: width, height and a flat u32 pixel buffer. -/
structure Canvas where
  width : ℕ
  height : ℕ
  buffer : List ℕ
deriving DecidableEq, Repr

def Canvas.new (width height : ℕ) : Canvas :=
  ⟨width, height, List.replicate (width * height) 0⟩

/-- Source Canvas::set_color: silently ignore out-of-range coordinates,
otherwise store color.rgb() at x + y * width.  (The source's usize
`width - 1` underflows when width = 0; natural subtraction differs there,
but no settled claim touches a zero-sized canvas.) -/
def Canvas.set_color (c : Canvas) (x y : ℕ) (color : Color) : Canvas :=
  if x > c.width - 1 ∨ y > c.height - 1 then c
  else { c with buffer := c.buffer.set (x + y * c.width) color.rgb }

/-- Source Canvas::color_at: &0 for out-of-range coordinates, otherwise
the stored pixel. -/
def Canvas.color_at (c : Canvas) (x y : ℕ) : ℕ :=
  if x > c.width - 1 ∨ y > c.height - 1 then 0
  else c.buffer.getD (x + y * c.width) 0

/-! ### camera.rs -/

/-- Source Camera.  hsize and vsize are f32 in the source and stay
rational here; render truncates them with `as usize`. -/
structure Camera where
  hsize : ℚ
  vsize : ℚ
  field_of_view : ℚ
  transform : Matrix4x4
  pixel_size : ℚ
  half_width : ℚ
  half_height : ℚ
deriving DecidableEq, Repr

/-- Rust `as usize` on a nonnegative float truncates toward zero; negative
values saturate to zero. -/
def toUsize (q : ℚ) : ℕ := (Int.floor q).toNat

/-- Source Camera::ray_for_pixel. -/
def Camera.ray_for_pixel (sq : ℚ → ℚ) (cam : Camera) (px py : ℚ) : Ray :=
  let xoffset := (px + 1/2) * cam.pixel_size
  let yoffset := (py + 1/2) * cam.pixel_size
  let world_x := cam.half_width - xoffset
  let world_y := cam.half_height - yoffset
  let pixel := cam.transform.invert * Vec4.point world_x world_y (-1)
  let origin := cam.transform.invert * Vec4.point 0 0 0
  let direction := (pixel - origin).normalize sq
  Ray.new origin direction

/-- Source Camera::render: the source loops x over 0..hsize-1 and y over
0..vsize-1 (exclusive upper bounds), computing each visited pixel's color
with world.color_at(ray, 5). -/
def Camera.render (sq : ℚ → ℚ) (powf : ℚ → ℚ → ℚ) (cam : Camera) (world : World) : Canvas :=
  let image := Canvas.new (toUsize cam.hsize) (toUsize cam.vsize)
  (List.range (toUsize cam.vsize - 1)).foldl
    (fun (image : Canvas) (y : ℕ) =>
      (List.range (toUsize cam.hsize - 1)).foldl
        (fun (image : Canvas) (x : ℕ) =>
          let ray := cam.ray_for_pixel sq (x : ℕ) (y : ℕ)
          let color := world.color_at sq powf ray 5
          image.set_color x y color)
        image)
    image

/-! ### float-with-specials model for the cube slab method (claim C10)

Cube::check_axis multiplies a numerator by f32::INFINITY when the ray
direction component is below the epsilon, so its arithmetic lives in IEEE
extended reals: this small type carries finite rationals, both infinities
and NaN, with the IEEE rules for exactly the operations the slab method
performs.  f32 comparisons are false whenever NaN is involved. -/

inductive F where
  | num (q : ℚ)
  | inf
  | ninf
  | nan
deriving DecidableEq, Repr

/-- IEEE less-than: false on any NaN operand. -/
def F.lt : F → F → Bool
  | .num a, .num b => decide (a < b)
  | .num _, .inf => true
  | .inf, .num _ => false
  | .num _, .ninf => false
  | .ninf, .num _ => true
  | .ninf, .inf => true
  | .inf, .ninf => false
  | .inf, .inf => false
  | .ninf, .ninf => false
  | .nan, _ => false
  | _, .nan => false

def F.gt (a b : F) : Bool := F.lt b a

/-- IEEE greater-or-equal: false on any NaN operand. -/
def F.ge : F → F → Bool
  | .num a, .num b => decide (a ≥ b)
  | .num _, .inf => false
  | .inf, .num _ => true
  | .num _, .ninf => true
  | .ninf, .num _ => false
  | .ninf, .inf => false
  | .inf, .ninf => true
  | .inf, .inf => true
  | .ninf, .ninf => true
  | .nan, _ => false
  | _, .nan => false

/-- IEEE subtraction restricted to the cases the slab method reaches. -/
def F.sub : F → F → F
  | .num a, .num b => .num (a - b)
  | .num _, .inf => .ninf
  | .num _, .ninf => .inf
  | .inf, .num _ => .inf
  | .ninf, .num _ => .ninf
  | .inf, .ninf => .inf
  | .ninf, .inf => .ninf
  | .inf, .inf => .nan
  | .ninf, .ninf => .nan
  | .nan, _ => .nan
  | _, .nan => .nan

def F.neg : F → F
  | .num a => .num (-a)
  | .inf => .ninf
  | .ninf => .inf
  | .nan => .nan

/-- IEEE multiplication: zero times an infinity is NaN. -/
def F.mul : F → F → F
  | .num a, .num b => .num (a * b)
  | .num a, .inf => if a > 0 then .inf else if a < 0 then .ninf else .nan
  | .num a, .ninf => if a > 0 then .ninf else if a < 0 then .inf else .nan
  | .inf, .num a => if a > 0 then .inf else if a < 0 then .ninf else .nan
  | .ninf, .num a => if a > 0 then .ninf else if a < 0 then .inf else .nan
  | .inf, .inf => .inf
  | .ninf, .ninf => .inf
  | .inf, .ninf => .ninf
  | .ninf, .inf => .ninf
  | .nan, _ => .nan
  | _, .nan => .nan

/-- IEEE division restricted to the cases the slab method reaches (finite
numerators and denominators; division by zero gives a signed infinity or
NaN). -/
def F.div : F → F → F
  | .num a, .num b =>
      if b = 0 then (if a > 0 then .inf else if a < 0 then .ninf else .nan)
      else .num (a / b)
  | .num _, .inf => .num 0
  | .num _, .ninf => .num 0
  | .inf, .num a => if a ≥ 0 then .inf else .ninf
  | .ninf, .num a => if a ≥ 0 then .ninf else .inf
  | .inf, .inf => .nan
  | .ninf, .ninf => .nan
  | .inf, .ninf => .nan
  | .ninf, .inf => .nan
  | .nan, _ => .nan
  | _, .nan => .nan

/-- IEEE absolute value. -/
def F.abs : F → F
  | .num a => .num |a|
  | .inf => .inf
  | .ninf => .inf
  | .nan => .nan

/-- Source util::max_f32 over IEEE floats: the running maximum is replaced
only when the strict `>` comparison holds, which is false on NaN. -/
def maxF : List F → Option F
  | [] => none
  | a :: rest => some (rest.foldl (fun max x => if F.gt x max then x else max) a)

/-- Source util::min_f32 over IEEE floats. -/
def minF : List F → Option F
  | [] => none
  | a :: rest => some (rest.foldl (fun min x => if F.lt x min then x else min) a)

/-- Source Cube::check_axis over IEEE floats: the branch below the epsilon
threshold multiplies the numerators by f32::INFINITY. -/
def Cube.check_axis (origin direction : F) : F × F :=
  let tmin_numerator := F.sub (.num (-1)) origin
  let tmax_numerator := F.sub (.num 1) origin
  let (tmin, tmax) :=
    if F.ge direction.abs (.num THRESHOLD_F32) then
      (tmin_numerator.div direction, tmax_numerator.div direction)
    else
      (tmin_numerator.mul .inf, tmax_numerator.mul .inf)
  if F.gt tmin tmax then (tmax, tmin) else (tmin, tmax)

/-- A ray over IEEE floats (only the six components Cube::local_intersect
reads). -/
structure FRay where
  ox : F
  oy : F
  oz : F
  dx : F
  dy : F
  dz : F
deriving DecidableEq, Repr

/-- Source Cube::local_intersect: the slab method.  Intersections are
represented by their t values (the shape reference carries no information
here). -/
def Cube.local_intersect (ray : FRay) : List F :=
  let xt := Cube.check_axis ray.ox ray.dx
  let yt := Cube.check_axis ray.oy ray.dy
  let zt := Cube.check_axis ray.oz ray.dz
  match maxF [xt.1, yt.1, zt.1], minF [xt.2, yt.2, zt.2] with
  | some tmin, some tmax =>
      if F.gt tmin tmax then [] else [tmin, tmax]
  | _, _ => []

/-- Rust's f32 partial_cmp: None exactly when a NaN is involved. -/
def F.pcmp : F → F → Option Ordering
  | .nan, _ => none
  | _, .nan => none
  | a, b => some (if F.lt a b then .lt else if F.lt b a then .gt else .eq)

/-- The t-sort at the end of World::intersect_world, over IEEE floats: it
compares t values with partial_cmp().unwrap(), so the call panics
(modeled as none) as soon as the values to sort are not totally
comparable, which happens exactly when a NaN is present in a list of two
or more elements. -/
def sortByT (ts : List F) : Option (List F) :=
  if ts.length ≤ 1 ∨ ts.Pairwise (fun a b => (F.pcmp a b).isSome) then
    some (ts.mergeSort fun a b => ! F.lt b a)
  else none

/-! ### spec-side definition for claim C1 -/

/-- The refractive index of the top of the container, or 1.0 when the
container is empty, as the spec words it. -/
def containerTopIndex (container : List Shape) : ℚ :=
  match container.getLast? with
  | none => 1
  | some top => top.material.refraction

/-- Definition following the spec's words for claim C1: walk the
intersection list in order maintaining a container of currently-entered
shapes; for each intersection record n1 as the index of the top of the
container before updating, remove the intersection's shape when present
(matched by identity) and otherwise append it, record n2 as the new top
after updating, and stop at the intersection equal to the target hit
(matched by shape identity and t). -/
def n1n2Spec (self : Intersection) : List Intersection → List Shape → ℚ × ℚ
  | [], container => (containerTopIndex container, containerTopIndex container)
  | inter :: rest, container =>
    let n1 := containerTopIndex container
    let container2 :=
      if (container.filter fun sh => decide (sh.id = inter.object.id)).isEmpty
      then container ++ [inter.object]
      else container.eraseP fun sh => decide (sh.id = inter.object.id)
    let n2 := containerTopIndex container2
    if self.object.id = inter.object.id ∧ self.t = inter.t then (n1, n2)
    else n1n2Spec self rest container2

/-- The embedding of Matrix4x4 into Mathlib's matrices over the
rationals, used to reason about the inverse (proof infrastructure for
claim C7; the entry at (i, j) is the source's get(i, j)). -/
def toMat (M : Matrix4x4) : Matrix (Fin 4) (Fin 4) ℚ :=
  Matrix.of fun i j => M.get i j

/-! ## Theorems

The helper lemmas below are shared infrastructure; the claim theorems
follow, one per claim, each with its witness when it carries a
hypothesis. -/

lemma Matrix4x4.mul_def (a b : Matrix4x4) : a * b = Matrix4x4.mul a b := rfl

set_option maxHeartbeats 1000000

lemma cofactor_expand_00 (m : Matrix4x4) :
    m.cofactor 0 0 = (m.get 1 1 * (m.get 2 2 * m.get 3 3 - m.get 2 3 * m.get 3 2) - m.get 1 2 * (m.get 2 1 * m.get 3 3 - m.get 2 3 * m.get 3 1) + m.get 1 3 * (m.get 2 1 * m.get 3 2 - m.get 2 2 * m.get 3 1)) := by
  simp [Matrix4x4.cofactor, Matrix4x4.minor, Matrix4x4.submatrix,
    Matrix3x3.determinant, Matrix3x3.cofactor, Matrix3x3.minor,
    Matrix3x3.submatrix, Matrix3x3.get, Matrix2x2.determinant, Matrix4x4.get]
  ring

lemma cofactor_expand_01 (m : Matrix4x4) :
    m.cofactor 0 1 = -(m.get 1 0 * (m.get 2 2 * m.get 3 3 - m.get 2 3 * m.get 3 2) - m.get 1 2 * (m.get 2 0 * m.get 3 3 - m.get 2 3 * m.get 3 0) + m.get 1 3 * (m.get 2 0 * m.get 3 2 - m.get 2 2 * m.get 3 0)) := by
  simp [Matrix4x4.cofactor, Matrix4x4.minor, Matrix4x4.submatrix,
    Matrix3x3.determinant, Matrix3x3.cofactor, Matrix3x3.minor,
    Matrix3x3.submatrix, Matrix3x3.get, Matrix2x2.determinant, Matrix4x4.get]
  ring

lemma cofactor_expand_02 (m : Matrix4x4) :
    m.cofactor 0 2 = (m.get 1 0 * (m.get 2 1 * m.get 3 3 - m.get 2 3 * m.get 3 1) - m.get 1 1 * (m.get 2 0 * m.get 3 3 - m.get 2 3 * m.get 3 0) + m.get 1 3 * (m.get 2 0 * m.get 3 1 - m.get 2 1 * m.get 3 0)) := by
  simp [Matrix4x4.cofactor, Matrix4x4.minor, Matrix4x4.submatrix,
    Matrix3x3.determinant, Matrix3x3.cofactor, Matrix3x3.minor,
    Matrix3x3.submatrix, Matrix3x3.get, Matrix2x2.determinant, Matrix4x4.get]
  ring

lemma cofactor_expand_03 (m : Matrix4x4) :
    m.cofactor 0 3 = -(m.get 1 0 * (m.get 2 1 * m.get 3 2 - m.get 2 2 * m.get 3 1) - m.get 1 1 * (m.get 2 0 * m.get 3 2 - m.get 2 2 * m.get 3 0) + m.get 1 2 * (m.get 2 0 * m.get 3 1 - m.get 2 1 * m.get 3 0)) := by
  simp [Matrix4x4.cofactor, Matrix4x4.minor, Matrix4x4.submatrix,
    Matrix3x3.determinant, Matrix3x3.cofactor, Matrix3x3.minor,
    Matrix3x3.submatrix, Matrix3x3.get, Matrix2x2.determinant, Matrix4x4.get]
  ring

lemma cofactor_expand_10 (m : Matrix4x4) :
    m.cofactor 1 0 = -(m.get 0 1 * (m.get 2 2 * m.get 3 3 - m.get 2 3 * m.get 3 2) - m.get 0 2 * (m.get 2 1 * m.get 3 3 - m.get 2 3 * m.get 3 1) + m.get 0 3 * (m.get 2 1 * m.get 3 2 - m.get 2 2 * m.get 3 1)) := by
  simp [Matrix4x4.cofactor, Matrix4x4.minor, Matrix4x4.submatrix,
    Matrix3x3.determinant, Matrix3x3.cofactor, Matrix3x3.minor,
    Matrix3x3.submatrix, Matrix3x3.get, Matrix2x2.determinant, Matrix4x4.get]
  ring

lemma cofactor_expand_11 (m : Matrix4x4) :
    m.cofactor 1 1 = (m.get 0 0 * (m.get 2 2 * m.get 3 3 - m.get 2 3 * m.get 3 2) - m.get 0 2 * (m.get 2 0 * m.get 3 3 - m.get 2 3 * m.get 3 0) + m.get 0 3 * (m.get 2 0 * m.get 3 2 - m.get 2 2 * m.get 3 0)) := by
  simp [Matrix4x4.cofactor, Matrix4x4.minor, Matrix4x4.submatrix,
    Matrix3x3.determinant, Matrix3x3.cofactor, Matrix3x3.minor,
    Matrix3x3.submatrix, Matrix3x3.get, Matrix2x2.determinant, Matrix4x4.get]
  ring

lemma cofactor_expand_12 (m : Matrix4x4) :
    m.cofactor 1 2 = -(m.get 0 0 * (m.get 2 1 * m.get 3 3 - m.get 2 3 * m.get 3 1) - m.get 0 1 * (m.get 2 0 * m.get 3 3 - m.get 2 3 * m.get 3 0) + m.get 0 3 * (m.get 2 0 * m.get 3 1 - m.get 2 1 * m.get 3 0)) := by
  simp [Matrix4x4.cofactor, Matrix4x4.minor, Matrix4x4.submatrix,
    Matrix3x3.determinant, Matrix3x3.cofactor, Matrix3x3.minor,
    Matrix3x3.submatrix, Matrix3x3.get, Matrix2x2.determinant, Matrix4x4.get]
  ring

lemma cofactor_expand_13 (m : Matrix4x4) :
    m.cofactor 1 3 = (m.get 0 0 * (m.get 2 1 * m.get 3 2 - m.get 2 2 * m.get 3 1) - m.get 0 1 * (m.get 2 0 * m.get 3 2 - m.get 2 2 * m.get 3 0) + m.get 0 2 * (m.get 2 0 * m.get 3 1 - m.get 2 1 * m.get 3 0)) := by
  simp [Matrix4x4.cofactor, Matrix4x4.minor, Matrix4x4.submatrix,
    Matrix3x3.determinant, Matrix3x3.cofactor, Matrix3x3.minor,
    Matrix3x3.submatrix, Matrix3x3.get, Matrix2x2.determinant, Matrix4x4.get]
  ring

lemma cofactor_expand_20 (m : Matrix4x4) :
    m.cofactor 2 0 = (m.get 0 1 * (m.get 1 2 * m.get 3 3 - m.get 1 3 * m.get 3 2) - m.get 0 2 * (m.get 1 1 * m.get 3 3 - m.get 1 3 * m.get 3 1) + m.get 0 3 * (m.get 1 1 * m.get 3 2 - m.get 1 2 * m.get 3 1)) := by
  simp [Matrix4x4.cofactor, Matrix4x4.minor, Matrix4x4.submatrix,
    Matrix3x3.determinant, Matrix3x3.cofactor, Matrix3x3.minor,
    Matrix3x3.submatrix, Matrix3x3.get, Matrix2x2.determinant, Matrix4x4.get]
  ring

lemma cofactor_expand_21 (m : Matrix4x4) :
    m.cofactor 2 1 = -(m.get 0 0 * (m.get 1 2 * m.get 3 3 - m.get 1 3 * m.get 3 2) - m.get 0 2 * (m.get 1 0 * m.get 3 3 - m.get 1 3 * m.get 3 0) + m.get 0 3 * (m.get 1 0 * m.get 3 2 - m.get 1 2 * m.get 3 0)) := by
  simp [Matrix4x4.cofactor, Matrix4x4.minor, Matrix4x4.submatrix,
    Matrix3x3.determinant, Matrix3x3.cofactor, Matrix3x3.minor,
    Matrix3x3.submatrix, Matrix3x3.get, Matrix2x2.determinant, Matrix4x4.get]
  ring

lemma cofactor_expand_22 (m : Matrix4x4) :
    m.cofactor 2 2 = (m.get 0 0 * (m.get 1 1 * m.get 3 3 - m.get 1 3 * m.get 3 1) - m.get 0 1 * (m.get 1 0 * m.get 3 3 - m.get 1 3 * m.get 3 0) + m.get 0 3 * (m.get 1 0 * m.get 3 1 - m.get 1 1 * m.get 3 0)) := by
  simp [Matrix4x4.cofactor, Matrix4x4.minor, Matrix4x4.submatrix,
    Matrix3x3.determinant, Matrix3x3.cofactor, Matrix3x3.minor,
    Matrix3x3.submatrix, Matrix3x3.get, Matrix2x2.determinant, Matrix4x4.get]
  ring

lemma cofactor_expand_23 (m : Matrix4x4) :
    m.cofactor 2 3 = -(m.get 0 0 * (m.get 1 1 * m.get 3 2 - m.get 1 2 * m.get 3 1) - m.get 0 1 * (m.get 1 0 * m.get 3 2 - m.get 1 2 * m.get 3 0) + m.get 0 2 * (m.get 1 0 * m.get 3 1 - m.get 1 1 * m.get 3 0)) := by
  simp [Matrix4x4.cofactor, Matrix4x4.minor, Matrix4x4.submatrix,
    Matrix3x3.determinant, Matrix3x3.cofactor, Matrix3x3.minor,
    Matrix3x3.submatrix, Matrix3x3.get, Matrix2x2.determinant, Matrix4x4.get]
  ring

lemma cofactor_expand_30 (m : Matrix4x4) :
    m.cofactor 3 0 = -(m.get 0 1 * (m.get 1 2 * m.get 2 3 - m.get 1 3 * m.get 2 2) - m.get 0 2 * (m.get 1 1 * m.get 2 3 - m.get 1 3 * m.get 2 1) + m.get 0 3 * (m.get 1 1 * m.get 2 2 - m.get 1 2 * m.get 2 1)) := by
  simp [Matrix4x4.cofactor, Matrix4x4.minor, Matrix4x4.submatrix,
    Matrix3x3.determinant, Matrix3x3.cofactor, Matrix3x3.minor,
    Matrix3x3.submatrix, Matrix3x3.get, Matrix2x2.determinant, Matrix4x4.get]
  ring

lemma cofactor_expand_31 (m : Matrix4x4) :
    m.cofactor 3 1 = (m.get 0 0 * (m.get 1 2 * m.get 2 3 - m.get 1 3 * m.get 2 2) - m.get 0 2 * (m.get 1 0 * m.get 2 3 - m.get 1 3 * m.get 2 0) + m.get 0 3 * (m.get 1 0 * m.get 2 2 - m.get 1 2 * m.get 2 0)) := by
  simp [Matrix4x4.cofactor, Matrix4x4.minor, Matrix4x4.submatrix,
    Matrix3x3.determinant, Matrix3x3.cofactor, Matrix3x3.minor,
    Matrix3x3.submatrix, Matrix3x3.get, Matrix2x2.determinant, Matrix4x4.get]
  ring

lemma cofactor_expand_32 (m : Matrix4x4) :
    m.cofactor 3 2 = -(m.get 0 0 * (m.get 1 1 * m.get 2 3 - m.get 1 3 * m.get 2 1) - m.get 0 1 * (m.get 1 0 * m.get 2 3 - m.get 1 3 * m.get 2 0) + m.get 0 3 * (m.get 1 0 * m.get 2 1 - m.get 1 1 * m.get 2 0)) := by
  simp [Matrix4x4.cofactor, Matrix4x4.minor, Matrix4x4.submatrix,
    Matrix3x3.determinant, Matrix3x3.cofactor, Matrix3x3.minor,
    Matrix3x3.submatrix, Matrix3x3.get, Matrix2x2.determinant, Matrix4x4.get]
  ring

lemma cofactor_expand_33 (m : Matrix4x4) :
    m.cofactor 3 3 = (m.get 0 0 * (m.get 1 1 * m.get 2 2 - m.get 1 2 * m.get 2 1) - m.get 0 1 * (m.get 1 0 * m.get 2 2 - m.get 1 2 * m.get 2 0) + m.get 0 2 * (m.get 1 0 * m.get 2 1 - m.get 1 1 * m.get 2 0)) := by
  simp [Matrix4x4.cofactor, Matrix4x4.minor, Matrix4x4.submatrix,
    Matrix3x3.determinant, Matrix3x3.cofactor, Matrix3x3.minor,
    Matrix3x3.submatrix, Matrix3x3.get, Matrix2x2.determinant, Matrix4x4.get]
  ring

lemma det_expand (m : Matrix4x4) :
    m.determinant = m.get 0 0 * (m.get 1 1 * (m.get 2 2 * m.get 3 3 - m.get 2 3 * m.get 3 2) - m.get 1 2 * (m.get 2 1 * m.get 3 3 - m.get 2 3 * m.get 3 1) + m.get 1 3 * (m.get 2 1 * m.get 3 2 - m.get 2 2 * m.get 3 1)) + m.get 0 1 * -(m.get 1 0 * (m.get 2 2 * m.get 3 3 - m.get 2 3 * m.get 3 2) - m.get 1 2 * (m.get 2 0 * m.get 3 3 - m.get 2 3 * m.get 3 0) + m.get 1 3 * (m.get 2 0 * m.get 3 2 - m.get 2 2 * m.get 3 0)) + m.get 0 2 * (m.get 1 0 * (m.get 2 1 * m.get 3 3 - m.get 2 3 * m.get 3 1) - m.get 1 1 * (m.get 2 0 * m.get 3 3 - m.get 2 3 * m.get 3 0) + m.get 1 3 * (m.get 2 0 * m.get 3 1 - m.get 2 1 * m.get 3 0)) + m.get 0 3 * -(m.get 1 0 * (m.get 2 1 * m.get 3 2 - m.get 2 2 * m.get 3 1) - m.get 1 1 * (m.get 2 0 * m.get 3 2 - m.get 2 2 * m.get 3 0) + m.get 1 2 * (m.get 2 0 * m.get 3 1 - m.get 2 1 * m.get 3 0)) := by
  rw [Matrix4x4.determinant, cofactor_expand_00, cofactor_expand_01,
    cofactor_expand_02, cofactor_expand_03]

lemma invert_get_00 (m : Matrix4x4) :
    (m.invert).get 0 0 = m.cofactor 0 0 / m.determinant := rfl

lemma invert_get_01 (m : Matrix4x4) :
    (m.invert).get 0 1 = m.cofactor 1 0 / m.determinant := rfl

lemma invert_get_02 (m : Matrix4x4) :
    (m.invert).get 0 2 = m.cofactor 2 0 / m.determinant := rfl

lemma invert_get_03 (m : Matrix4x4) :
    (m.invert).get 0 3 = m.cofactor 3 0 / m.determinant := rfl

lemma invert_get_10 (m : Matrix4x4) :
    (m.invert).get 1 0 = m.cofactor 0 1 / m.determinant := rfl

lemma invert_get_11 (m : Matrix4x4) :
    (m.invert).get 1 1 = m.cofactor 1 1 / m.determinant := rfl

lemma invert_get_12 (m : Matrix4x4) :
    (m.invert).get 1 2 = m.cofactor 2 1 / m.determinant := rfl

lemma invert_get_13 (m : Matrix4x4) :
    (m.invert).get 1 3 = m.cofactor 3 1 / m.determinant := rfl

lemma invert_get_20 (m : Matrix4x4) :
    (m.invert).get 2 0 = m.cofactor 0 2 / m.determinant := rfl

lemma invert_get_21 (m : Matrix4x4) :
    (m.invert).get 2 1 = m.cofactor 1 2 / m.determinant := rfl

lemma invert_get_22 (m : Matrix4x4) :
    (m.invert).get 2 2 = m.cofactor 2 2 / m.determinant := rfl

lemma invert_get_23 (m : Matrix4x4) :
    (m.invert).get 2 3 = m.cofactor 3 2 / m.determinant := rfl

lemma invert_get_30 (m : Matrix4x4) :
    (m.invert).get 3 0 = m.cofactor 0 3 / m.determinant := rfl

lemma invert_get_31 (m : Matrix4x4) :
    (m.invert).get 3 1 = m.cofactor 1 3 / m.determinant := rfl

lemma invert_get_32 (m : Matrix4x4) :
    (m.invert).get 3 2 = m.cofactor 2 3 / m.determinant := rfl

lemma invert_get_33 (m : Matrix4x4) :
    (m.invert).get 3 3 = m.cofactor 3 3 / m.determinant := rfl

lemma mul_invert_eq (m : Matrix4x4) (h : m.determinant ≠ 0) :
    m * m.invert = Matrix4x4.identity := by
  rw [Matrix4x4.mul_def]
  unfold Matrix4x4.mul Matrix4x4.identity
  rw [Matrix4x4.mk.injEq]
  simp only [List.cons.injEq, and_true]
  refine ⟨?_, ?_, ?_, ?_, ?_, ?_, ?_, ?_, ?_, ?_, ?_, ?_, ?_, ?_, ?_, ?_⟩
  · -- entry (0, 0)
    rw [invert_get_00, invert_get_10, invert_get_20, invert_get_30]
    rw [cofactor_expand_00, cofactor_expand_01, cofactor_expand_02, cofactor_expand_03]
    field_simp
    rw [det_expand]
    ring
  · -- entry (0, 1)
    rw [invert_get_01, invert_get_11, invert_get_21, invert_get_31]
    rw [cofactor_expand_10, cofactor_expand_11, cofactor_expand_12, cofactor_expand_13]
    field_simp
    ring
  · -- entry (0, 2)
    rw [invert_get_02, invert_get_12, invert_get_22, invert_get_32]
    rw [cofactor_expand_20, cofactor_expand_21, cofactor_expand_22, cofactor_expand_23]
    field_simp
    ring
  · -- entry (0, 3)
    rw [invert_get_03, invert_get_13, invert_get_23, invert_get_33]
    rw [cofactor_expand_30, cofactor_expand_31, cofactor_expand_32, cofactor_expand_33]
    field_simp
    ring
  · -- entry (1, 0)
    rw [invert_get_00, invert_get_10, invert_get_20, invert_get_30]
    rw [cofactor_expand_00, cofactor_expand_01, cofactor_expand_02, cofactor_expand_03]
    field_simp
    ring
  · -- entry (1, 1)
    rw [invert_get_01, invert_get_11, invert_get_21, invert_get_31]
    rw [cofactor_expand_10, cofactor_expand_11, cofactor_expand_12, cofactor_expand_13]
    field_simp
    rw [det_expand]
    ring
  · -- entry (1, 2)
    rw [invert_get_02, invert_get_12, invert_get_22, invert_get_32]
    rw [cofactor_expand_20, cofactor_expand_21, cofactor_expand_22, cofactor_expand_23]
    field_simp
    ring
  · -- entry (1, 3)
    rw [invert_get_03, invert_get_13, invert_get_23, invert_get_33]
    rw [cofactor_expand_30, cofactor_expand_31, cofactor_expand_32, cofactor_expand_33]
    field_simp
    ring
  · -- entry (2, 0)
    rw [invert_get_00, invert_get_10, invert_get_20, invert_get_30]
    rw [cofactor_expand_00, cofactor_expand_01, cofactor_expand_02, cofactor_expand_03]
    field_simp
    ring
  · -- entry (2, 1)
    rw [invert_get_01, invert_get_11, invert_get_21, invert_get_31]
    rw [cofactor_expand_10, cofactor_expand_11, cofactor_expand_12, cofactor_expand_13]
    field_simp
    ring
  · -- entry (2, 2)
    rw [invert_get_02, invert_get_12, invert_get_22, invert_get_32]
    rw [cofactor_expand_20, cofactor_expand_21, cofactor_expand_22, cofactor_expand_23]
    field_simp
    rw [det_expand]
    ring
  · -- entry (2, 3)
    rw [invert_get_03, invert_get_13, invert_get_23, invert_get_33]
    rw [cofactor_expand_30, cofactor_expand_31, cofactor_expand_32, cofactor_expand_33]
    field_simp
    ring
  · -- entry (3, 0)
    rw [invert_get_00, invert_get_10, invert_get_20, invert_get_30]
    rw [cofactor_expand_00, cofactor_expand_01, cofactor_expand_02, cofactor_expand_03]
    field_simp
    ring
  · -- entry (3, 1)
    rw [invert_get_01, invert_get_11, invert_get_21, invert_get_31]
    rw [cofactor_expand_10, cofactor_expand_11, cofactor_expand_12, cofactor_expand_13]
    field_simp
    ring
  · -- entry (3, 2)
    rw [invert_get_02, invert_get_12, invert_get_22, invert_get_32]
    rw [cofactor_expand_20, cofactor_expand_21, cofactor_expand_22, cofactor_expand_23]
    field_simp
    ring
  · -- entry (3, 3)
    rw [invert_get_03, invert_get_13, invert_get_23, invert_get_33]
    rw [cofactor_expand_30, cofactor_expand_31, cofactor_expand_32, cofactor_expand_33]
    field_simp
    rw [det_expand]
    ring


lemma fin4_val_zero : ((0 : Fin 4) : ℕ) = 0 := rfl

lemma fin4_val_one : ((1 : Fin 4) : ℕ) = 1 := rfl

lemma fin4_val_two : ((2 : Fin 4) : ℕ) = 2 := rfl

lemma fin4_val_three : ((3 : Fin 4) : ℕ) = 3 := rfl

lemma toMat_mul (A B : Matrix4x4) : toMat (A * B) = toMat A * toMat B := by
  ext i j
  fin_cases i <;> fin_cases j <;>
    simp [toMat, Matrix4x4.mul_def, Matrix4x4.mul, Matrix4x4.get, Matrix.mul_apply,
      Fin.sum_univ_four, fin4_val_zero, fin4_val_one, fin4_val_two, fin4_val_three]

lemma toMat_identity : toMat Matrix4x4.identity = 1 := by
  ext i j
  fin_cases i <;> fin_cases j <;>
    simp [toMat, Matrix4x4.identity, Matrix4x4.get, Matrix.one_apply,
      fin4_val_zero, fin4_val_one, fin4_val_two, fin4_val_three]

lemma det_toMat (M : Matrix4x4) : (toMat M).det = M.determinant := by
  rw [det_expand, Matrix.det_succ_row_zero]
  simp [Fin.sum_univ_succ, Matrix.det_fin_three, Matrix.submatrix_apply,
    Fin.succAbove, Fin.lt_def, toMat, Matrix4x4.get,
    fin4_val_zero, fin4_val_one, fin4_val_two, fin4_val_three]
  try ring

lemma equals_f32_refl (a : ℚ) : equals_f32 a a := by
  unfold equals_f32 THRESHOLD_F32
  simp

/-- C7: for every 4x4 matrix whose determinant is not within the epsilon
of zero, inverting twice gives back the matrix and the matrix times its
inverse is the identity, both under the source's element-wise approximate
equality with epsilon 1e-5 (both equalities hold exactly over the
rationals). -/
theorem C7_invert_involution_and_right_inverse (M : Matrix4x4)
    (h : ¬ equals_f32 M.determinant 0) :
    (M.invert.invert).approxEq M ∧ (M * M.invert).approxEq Matrix4x4.identity := by
  have hdet : M.determinant ≠ 0 := fun h0 => h (by rw [h0]; exact equals_f32_refl 0)
  have hmul := mul_invert_eq M hdet
  have h2 : (M * M.invert).approxEq Matrix4x4.identity := by
    rw [hmul]
    intro i _
    exact equals_f32_refl _
  refine ⟨?_, h2⟩
  have h1 : toMat M * toMat M.invert = 1 := by rw [← toMat_mul, hmul, toMat_identity]
  have hinv : (toMat M)⁻¹ = toMat M.invert := Matrix.inv_eq_right_inv h1
  have hU : IsUnit (toMat M).det := by rw [det_toMat]; exact isUnit_iff_ne_zero.mpr hdet
  have hdetN : (M.invert).determinant ≠ 0 := by
    rw [← det_toMat, ← hinv, Matrix.det_nonsing_inv, Ring.inverse_eq_inv']
    exact inv_ne_zero (by rw [det_toMat]; exact hdet)
  have hmulN := mul_invert_eq M.invert hdetN
  have h3 : toMat M.invert * toMat M.invert.invert = 1 := by
    rw [← toMat_mul, hmulN, toMat_identity]
  have hinv2 : (toMat M.invert)⁻¹ = toMat M.invert.invert := Matrix.inv_eq_right_inv h3
  have hMM : toMat M.invert.invert = toMat M := by
    rw [← hinv2, ← hinv, Matrix.nonsing_inv_nonsing_inv _ hU]
  have hget : ∀ r, r < 4 → ∀ c, c < 4 → (M.invert.invert).get r c = M.get r c := by
    intro r hr c hc
    have e := Matrix.ext_iff.mpr hMM ⟨r, hr⟩ ⟨c, hc⟩
    simpa [toMat] using e
  intro i hi
  have h4 := hget (i / 4) (by omega) (i % 4) (by omega)
  unfold Matrix4x4.get at h4
  rw [Nat.mod_add_div'] at h4
  rw [h4]
  exact equals_f32_refl _


/-- Witness for C7 at the concrete scaling matrix with determinant 24. -/
theorem C7_invert_involution_and_right_inverse_witness :
    ((Matrix4x4.scale 2 3 4).invert.invert).approxEq (Matrix4x4.scale 2 3 4) ∧
    (Matrix4x4.scale 2 3 4 * (Matrix4x4.scale 2 3 4).invert).approxEq Matrix4x4.identity :=
  C7_invert_involution_and_right_inverse (Matrix4x4.scale 2 3 4)
    (by norm_num [equals_f32, THRESHOLD_F32, det_expand, Matrix4x4.scale, Matrix4x4.get])


lemma removeFirstById_eq_eraseP (l : List Shape) (i : ℕ) :
    removeFirstById l i = l.eraseP fun sh => decide (sh.id = i) := by
  induction l with
  | nil => rfl
  | cons s rest ih =>
    unfold removeFirstById
    rw [List.eraseP_cons]
    by_cases h : s.id = i
    · simp [h]
    · simp [h, ih]

lemma filter_isEmpty_eq_not_any (l : List Shape) (p : Shape → Bool) :
    (l.filter p).isEmpty = ! l.any p := by
  induction l with
  | nil => rfl
  | cons a rest ih =>
    by_cases h : p a <;> simp [List.filter_cons, h, ih]

lemma container_update_eq (stack : List Shape) (obj : Shape) :
    (if stack.any (fun sh => decide (sh.id = obj.id))
     then removeFirstById stack obj.id else stack ++ [obj]) =
    (if (stack.filter fun sh => decide (sh.id = obj.id)).isEmpty
     then stack ++ [obj]
     else stack.eraseP fun sh => decide (sh.id = obj.id)) := by
  rw [filter_isEmpty_eq_not_any, removeFirstById_eq_eraseP]
  by_cases h : stack.any fun sh => decide (sh.id = obj.id) <;> simp [h]

lemma n1n2Walk_eq_spec (self : Intersection) (xs : List Intersection) :
    (∃ i ∈ xs, self.object.id = i.object.id ∧ self.t = i.t) →
    ∀ (stack : List Shape) (acc : ℚ × ℚ),
      n1n2Walk self xs stack acc = n1n2Spec self xs stack := by
  induction xs with
  | nil => intro h; simp at h
  | cons inter rest ih =>
    intro hfound stack acc
    unfold n1n2Walk n1n2Spec
    dsimp only
    rw [container_update_eq]
    by_cases hstop : self.object.id = inter.object.id ∧ self.t = inter.t
    · rw [if_pos hstop, if_pos hstop]
      rfl
    · rw [if_neg hstop, if_neg hstop]
      have hrest : ∃ i ∈ rest, self.object.id = i.object.id ∧ self.t = i.t := by
        rcases hfound with ⟨i, hi, hidt⟩
        rcases List.mem_cons.mp hi with hhead | htail
        · exact absurd (hhead ▸ hidt) hstop
        · exact ⟨i, htail, hidt⟩
      rw [ih hrest _ _]

lemma hit_snd (xs : List Intersection) :
    (Intersection.hit xs).2 =
      (xs.filter fun x => decide (x.t > 0)).mergeSort (fun a b => decide (a.t ≤ b.t)) := by
  unfold Intersection.hit
  dsimp only
  split <;> rfl

lemma hit_fst (xs : List Intersection) :
    (Intersection.hit xs).1 =
      ((xs.filter fun x => decide (x.t > 0)).mergeSort (fun a b => decide (a.t ≤ b.t)))[0]? := by
  unfold Intersection.hit
  dsimp only
  split
  · next h =>
      have : ((xs.filter fun x => decide (x.t > 0)).mergeSort (fun a b => decide (a.t ≤ b.t))) = [] := by
        cases hl : (xs.filter fun x => decide (x.t > 0)).mergeSort (fun a b => decide (a.t ≤ b.t)) with
        | nil => rfl
        | cons a l => rw [hl] at h; simp at h
      rw [this]; rfl
  · rfl

lemma hit_snd_pairwise (xs : List Intersection) :
    (Intersection.hit xs).2.Pairwise fun a b => a.t ≤ b.t := by
  rw [hit_snd]
  have h := @List.sorted_mergeSort Intersection
    (fun a b : Intersection => decide (a.t ≤ b.t))
    (fun a b c hab hbc => by
      simp only [decide_eq_true_eq] at *
      exact le_trans hab hbc)
    (fun a b => by
      simp only [Bool.or_eq_true, decide_eq_true_eq]
      exact le_total a.t b.t)
    (xs.filter fun x => decide (x.t > 0))
  exact h.imp (by intro a b hab; simpa using hab)

lemma hit_snd_perm (xs : List Intersection) :
    (Intersection.hit xs).2.Perm (xs.filter fun x => decide (x.t > 0)) := by
  rw [hit_snd]
  exact List.mergeSort_perm _ _

/-- C6: in Cylinder::local_normal_at both cap branches test the same
comparison against maximum, so the bottom-cap normal (0, -1, 0) is never
produced: points inside the unit disk with y within the epsilon of the
cylinder's maximum get the top-cap normal (0, 1, 0) and every other point
gets the side-wall normal (x, 0, z). -/
theorem C6_cylinder_bottom_cap_unreachable
    (s : Shape) (minimum maximum : ℚ) (closed : Bool) (sq : ℚ → ℚ)
    (p : Vec4) (hitI : Intersection)
    (hk : s.kind = .cylinder minimum maximum closed) :
    (s.local_normal_at sq p hitI =
      if p.x ^ 2 + p.z ^ 2 < 1 ∧ p.y ≥ maximum - THRESHOLD_F32
      then Vec4.vector 0 1 0
      else Vec4.vector p.x 0 p.z) ∧
    s.local_normal_at sq p hitI ≠ Vec4.vector 0 (-1) 0 := by
  have heq : s.local_normal_at sq p hitI =
      if p.x ^ 2 + p.z ^ 2 < 1 ∧ p.y ≥ maximum - THRESHOLD_F32
      then Vec4.vector 0 1 0
      else Vec4.vector p.x 0 p.z := by
    unfold Shape.local_normal_at
    rw [hk]
    dsimp only
    by_cases h : p.x ^ 2 + p.z ^ 2 < 1 ∧ p.y ≥ maximum - THRESHOLD_F32
    · rw [if_pos h, if_pos h]
    · rw [if_neg h, if_neg h, if_neg h]
  refine ⟨heq, ?_⟩
  rw [heq]
  split_ifs
  · simp only [Vec4.vector, ne_eq, Vec4.mk.injEq, not_and]
    norm_num
  · simp [Vec4.vector, Vec4.mk.injEq]

/-- Witness for C6 at a concrete cylinder and two concrete points. -/
theorem C6_cylinder_bottom_cap_unreachable_witness :
    (Shape.local_normal_at id ⟨0, Matrix4x4.identity, Material.default, .cylinder 0 1 true⟩
      (Vec4.point 0 1 0) (Intersection.new ⟨0, Matrix4x4.identity, Material.default, .cylinder 0 1 true⟩ 1) =
      Vec4.vector 0 1 0) ∧
    Shape.local_normal_at id ⟨0, Matrix4x4.identity, Material.default, .cylinder 0 1 true⟩
      (Vec4.point 0 1 0) (Intersection.new ⟨0, Matrix4x4.identity, Material.default, .cylinder 0 1 true⟩ 1) ≠
      Vec4.vector 0 (-1) 0 := by
  have h := C6_cylinder_bottom_cap_unreachable
    ⟨0, Matrix4x4.identity, Material.default, .cylinder 0 1 true⟩ 0 1 true id
    (Vec4.point 0 1 0) (Intersection.new ⟨0, Matrix4x4.identity, Material.default, .cylinder 0 1 true⟩ 1)
    rfl
  refine ⟨?_, h.2⟩
  rw [h.1]
  norm_num [Vec4.point, THRESHOLD_F32]

/-- C8: prepare_computations handles a missing intersection list in its
n1/n2 loop but unconditionally unwraps and indexes the list for the
normal query, so it panics (modeled: returns none) on None and on an
empty list, and succeeds on every nonempty list. -/
theorem C8_prepare_computations_unwrap_panic
    (sq : ℚ → ℚ) (i : Intersection) (ray : Ray) :
    i.prepare_computations sq ray none = none ∧
    i.prepare_computations sq ray (some []) = none ∧
    ∀ xs : List Intersection, xs ≠ [] → (i.prepare_computations sq ray (some xs)).isSome := by
  refine ⟨rfl, rfl, ?_⟩
  intro xs hxs
  match xs, hxs with
  | x :: rest, _ => simp [Intersection.prepare_computations]

/-- Witness for C8 at a concrete intersection, ray and singleton list. -/
theorem C8_prepare_computations_unwrap_panic_witness :
    Intersection.prepare_computations id
      (Intersection.new ⟨0, Matrix4x4.identity, Material.default, .sphere⟩ 1)
      (Ray.new (Vec4.point 0 0 (-5)) (Vec4.vector 0 0 1)) none = none ∧
    (Intersection.prepare_computations id
      (Intersection.new ⟨0, Matrix4x4.identity, Material.default, .sphere⟩ 1)
      (Ray.new (Vec4.point 0 0 (-5)) (Vec4.vector 0 0 1))
      (some [Intersection.new ⟨0, Matrix4x4.identity, Material.default, .sphere⟩ 1])).isSome := by
  have h := C8_prepare_computations_unwrap_panic id
    (Intersection.new ⟨0, Matrix4x4.identity, Material.default, .sphere⟩ 1)
    (Ray.new (Vec4.point 0 0 (-5)) (Vec4.vector 0 0 1))
  exact ⟨h.1, h.2.2 _ (by simp)⟩

/-- C10: for the ray with origin (1, 0, 0) and direction (0, 0, 1) the
cube slab method multiplies the zero numerator 1.0 - origin.x by
f32::INFINITY, producing NaN, Cube::local_intersect returns an
intersection whose t is NaN, and the t-sort of World::intersect_world,
which compares with partial_cmp().unwrap(), panics (modeled: none). -/
theorem C10_cube_nan_sort_panic :
    (Cube.check_axis (.num 1) (.num 0)).2 = F.nan ∧
    Cube.local_intersect ⟨.num 1, .num 0, .num 0, .num 0, .num 0, .num 1⟩ =
      [F.num (-1), F.nan] ∧
    sortByT (Cube.local_intersect ⟨.num 1, .num 0, .num 0, .num 0, .num 0, .num 1⟩) = none := by
  refine ⟨?_, ?_, ?_⟩ <;>
    norm_num [Cube.check_axis, Cube.local_intersect, F.sub, F.mul, F.div, F.abs,
      F.ge, F.gt, F.lt, F.pcmp, maxF, minF, sortByT, THRESHOLD_F32,
      List.pairwise_cons]

/-- C2: hit discards every intersection with t ≤ 0 and returns the
intersection with minimum remaining t, or None when no intersection with
t > 0 remains; in particular, on a list with intersections at t = -1 and
t = 1 it returns the one at t = 1. -/
theorem C2_hit_selects_min_positive :
    (∀ xs : List Intersection,
      ((Intersection.hit xs).1 = none → ∀ i ∈ xs, i.t ≤ 0) ∧
      (∀ i, (Intersection.hit xs).1 = some i →
        i ∈ xs ∧ 0 < i.t ∧ ∀ j ∈ xs, 0 < j.t → i.t ≤ j.t)) ∧
    (∀ s : Shape,
      (Intersection.hit [Intersection.new s (-1), Intersection.new s 1]).1 =
        some (Intersection.new s 1)) := by
  constructor
  · intro xs
    constructor
    · intro hnone i hi
      by_contra hpos
      push_neg at hpos
      have hmem : i ∈ xs.filter fun x => decide (x.t > 0) :=
        List.mem_filter.mpr ⟨hi, by simpa using hpos⟩
      rw [hit_fst] at hnone
      have hlen := List.getElem?_eq_none_iff.mp hnone
      have hempty : (xs.filter fun x => decide (x.t > 0)).mergeSort
          (fun a b => decide (a.t ≤ b.t)) = [] :=
        List.eq_nil_of_length_eq_zero (Nat.le_zero.mp hlen)
      have : i ∈ ([] : List Intersection) := by
        rw [← hempty]
        exact (List.mergeSort_perm _ _).mem_iff.mpr hmem
      simp at this
    · intro i hsome
      rw [hit_fst] at hsome
      rcases hcase : (xs.filter fun x => decide (x.t > 0)).mergeSort
          (fun a b => decide (a.t ≤ b.t)) with _ | ⟨a, tail⟩
      · rw [hcase] at hsome; simp at hsome
      · rw [hcase] at hsome
        simp only [List.getElem?_cons_zero, Option.some.injEq] at hsome
        subst hsome
        have hmem : a ∈ xs.filter fun x => decide (x.t > 0) := by
          have ha : a ∈ (xs.filter fun x => decide (x.t > 0)).mergeSort
              (fun a b => decide (a.t ≤ b.t)) := by
            rw [hcase]; exact List.mem_cons_self _ _
          exact (List.mergeSort_perm _ _).mem_iff.mp ha
        have hmf := List.mem_filter.mp hmem
        refine ⟨hmf.1, by simpa using hmf.2, ?_⟩
        intro j hj hjpos
        have hjfil : j ∈ xs.filter fun x => decide (x.t > 0) :=
          List.mem_filter.mpr ⟨hj, by simpa using hjpos⟩
        have hjsort : j ∈ (xs.filter fun x => decide (x.t > 0)).mergeSort
            (fun a b => decide (a.t ≤ b.t)) :=
          (List.mergeSort_perm _ _).mem_iff.mpr hjfil
        rw [hcase] at hjsort
        rcases List.mem_cons.mp hjsort with hji | hjtail
        · rw [hji]
        · have hpw := hit_snd_pairwise xs
          rw [hit_snd, hcase] at hpw
          exact (List.pairwise_cons.mp hpw).1 j hjtail
  · intro s
    rw [hit_fst]
    have hfil : [Intersection.new s (-1), Intersection.new s 1].filter
        (fun x => decide (x.t > 0)) = [Intersection.new s 1] := by
      norm_num [List.filter_cons, Intersection.new]
    rw [hfil, List.mergeSort_singleton]
    rfl

/-- Witness for C2: the selected hit on the concrete two-element list has
positive t and is the listed element with t = 1. -/
theorem C2_hit_selects_min_positive_witness :
    (Intersection.hit [Intersection.new ⟨0, Matrix4x4.identity, Material.default, .sphere⟩ (-1),
        Intersection.new ⟨0, Matrix4x4.identity, Material.default, .sphere⟩ 1]).1 =
      some (Intersection.new ⟨0, Matrix4x4.identity, Material.default, .sphere⟩ 1) ∧
    (0 : ℚ) < (Intersection.new ⟨0, Matrix4x4.identity, Material.default, .sphere⟩ 1).t := by
  have h := C2_hit_selects_min_positive.2 ⟨0, Matrix4x4.identity, Material.default, .sphere⟩
  refine ⟨h, ?_⟩
  exact ((C2_hit_selects_min_positive.1 _).2 _ h).2.1

/-- C9: hit mutates the vector passed to it: afterwards the caller's
vector holds exactly the original intersections with t > 0, sorted
ascending by t (the returned hit is its front element); World::color_at
clones the list beforehand, modeled by color_at passing the unmodified
pre-hit list to prepare_computations. -/
theorem C9_hit_mutates_vector_in_place (xs : List Intersection) :
    ((Intersection.hit xs).2.Pairwise fun a b => a.t ≤ b.t) ∧
    (Intersection.hit xs).2.Perm (xs.filter fun x => decide (x.t > 0)) ∧
    (Intersection.hit xs).1 = (Intersection.hit xs).2[0]? := by
  refine ⟨hit_snd_pairwise xs, hit_snd_perm xs, ?_⟩
  rw [hit_fst, hit_snd]

/-- C5: reflected_color is black when the reflective coefficient is 0 or
the bounce budget is 0, refracted_color is black when the transparency is
0 or the budget is 0, and on a positive budget both recurse into color_at
with the budget decremented; the mutual recursion is total for every
initial budget because these Lean definitions are accepted with the
lexicographic (remaining, call-tag) measure. -/
theorem C5_recursion_guards_and_decrement
    (sq : ℚ → ℚ) (powf : ℚ → ℚ → ℚ) (w : World) (comp : Comp) (remaining : ℕ) :
    (comp.object.material.reflective = 0 ∨ remaining = 0 →
      World.reflected_color sq powf w comp remaining = Color.new 0 0 0) ∧
    (comp.object.material.transparency = 0 ∨ remaining = 0 →
      World.refracted_color sq powf w comp remaining = Color.new 0 0 0) ∧
    (World.reflected_color sq powf w comp (remaining + 1) =
      if comp.object.material.reflective = 0 then Color.new 0 0 0
      else
        World.color_at sq powf w (Ray.new comp.over_point comp.reflectv) remaining *
          comp.object.material.reflective) ∧
    (World.refracted_color sq powf w comp (remaining + 1) =
      if comp.object.material.transparency = 0 then Color.new 0 0 0
      else
        let n_ratio := comp.n1 / comp.n2
        let cos_i := comp.eyev.dot comp.normalv
        let sin2_t := n_ratio * n_ratio * (1 - cos_i * cos_i)
        if sin2_t > 1 then Color.new 0 0 0
        else
          let cos_t := sq (1 - sin2_t)
          let direction := comp.normalv * (n_ratio * cos_i - cos_t) - comp.eyev * n_ratio
          World.color_at sq powf w (Ray.new comp.under_point direction) remaining *
            comp.object.material.transparency) := by
  refine ⟨?_, ?_, ?_, ?_⟩
  · intro h
    rw [World.reflected_color]
    exact if_pos h
  · intro h
    rw [World.refracted_color]
    exact if_pos h
  · rw [World.reflected_color]
    by_cases h : comp.object.material.reflective = 0
    · rw [if_pos (Or.inl h), if_pos h]
    · rw [if_neg (by simp [h]), if_neg h]
      simp
  · rw [World.refracted_color]
    by_cases h : comp.object.material.transparency = 0
    · rw [if_pos (Or.inl h), if_pos h]
    · rw [if_neg (by simp [h]), if_neg h]
      simp

/-- Witness for C5 at budget 0 and a concrete computation in the default
world geometry. -/
theorem C5_recursion_guards_and_decrement_witness :
    World.reflected_color id (fun a _ => a) ⟨[], []⟩
      (Comp.new 1 ⟨0, Matrix4x4.identity, Material.default, .sphere⟩
        (Vec4.point 0 0 0) (Vec4.vector 0 0 (-1)) (Vec4.vector 0 0 (-1))
        (Vec4.vector 0 0 1) 1 1) 0 = Color.new 0 0 0 ∧
    World.refracted_color id (fun a _ => a) ⟨[], []⟩
      (Comp.new 1 ⟨0, Matrix4x4.identity, Material.default, .sphere⟩
        (Vec4.point 0 0 0) (Vec4.vector 0 0 (-1)) (Vec4.vector 0 0 (-1))
        (Vec4.vector 0 0 1) 1 1) 0 = Color.new 0 0 0 := by
  refine ⟨?_, ?_⟩
  · exact (C5_recursion_guards_and_decrement id (fun a _ => a) ⟨[], []⟩ _ 0).1 (Or.inr rfl)
  · exact (C5_recursion_guards_and_decrement id (fun a _ => a) ⟨[], []⟩ _ 0).2.1 (Or.inr rfl)

/-- C4: shade_hit adds the Schlick-weighted blend of the reflected and
refracted contributions to the per-light surface color when the material
is both reflective and transparent, sums them directly otherwise, and
schlick is 1 on total internal reflection when n1 > n2 and otherwise
r0 + (1 - r0)(1 - cos)^5 with the cosine replaced by the transmitted
cosine in the n1 > n2 case. -/
theorem C4_shade_hit_schlick_blend
    (sq : ℚ → ℚ) (powf : ℚ → ℚ → ℚ) (w : World) (comp : Comp) (remaining : ℕ) :
    (0 < comp.object.material.reflective → 0 < comp.object.material.transparency →
      World.shade_hit sq powf w comp remaining =
        World.surfaceColor sq powf w comp +
        World.reflected_color sq powf w comp remaining * comp.schlick sq +
        World.refracted_color sq powf w comp remaining * (1 - comp.schlick sq)) ∧
    (¬ (0 < comp.object.material.reflective ∧ 0 < comp.object.material.transparency) →
      World.shade_hit sq powf w comp remaining =
        World.surfaceColor sq powf w comp +
        World.reflected_color sq powf w comp remaining +
        World.refracted_color sq powf w comp remaining) ∧
    (comp.n1 > comp.n2 →
      (comp.n1 / comp.n2) * (comp.n1 / comp.n2) *
          (1 - comp.eyev.dot comp.normalv * comp.eyev.dot comp.normalv) > 1 →
      comp.schlick sq = 1) ∧
    (comp.n1 > comp.n2 →
      ¬ (comp.n1 / comp.n2) * (comp.n1 / comp.n2) *
          (1 - comp.eyev.dot comp.normalv * comp.eyev.dot comp.normalv) > 1 →
      comp.schlick sq =
        ((comp.n1 - comp.n2) / (comp.n1 + comp.n2)) ^ 2 +
        (1 - ((comp.n1 - comp.n2) / (comp.n1 + comp.n2)) ^ 2) *
          (1 - sq (1 - (comp.n1 / comp.n2) * (comp.n1 / comp.n2) *
            (1 - comp.eyev.dot comp.normalv * comp.eyev.dot comp.normalv))) ^ 5) ∧
    (¬ comp.n1 > comp.n2 →
      comp.schlick sq =
        ((comp.n1 - comp.n2) / (comp.n1 + comp.n2)) ^ 2 +
        (1 - ((comp.n1 - comp.n2) / (comp.n1 + comp.n2)) ^ 2) *
          (1 - comp.eyev.dot comp.normalv) ^ 5) := by
  refine ⟨?_, ?_, ?_, ?_, ?_⟩
  · intro h1 h2
    rw [World.shade_hit]
    rw [if_pos ⟨h1, h2⟩]
  · intro h
    rw [World.shade_hit]
    rw [if_neg h]
  · intro h1 h2
    unfold Comp.schlick
    rw [if_pos h1, if_pos h2]
  · intro h1 h2
    unfold Comp.schlick
    rw [if_pos h1, if_neg h2]
  · intro h1
    unfold Comp.schlick
    rw [if_neg h1]

/-- Witness for C4 on a glass sphere (reflective 4/5, transparency 1) in
an empty world with bounce budget 3. -/
theorem C4_shade_hit_schlick_blend_witness :
    World.shade_hit id (fun a _ => a) ⟨[], []⟩
      (Comp.new 1 ⟨0, Matrix4x4.identity, glass_sphere_material, .sphere⟩
        (Vec4.point 0 0 0) (Vec4.vector 0 0 (-1)) (Vec4.vector 0 0 (-1))
        (Vec4.vector 0 0 1) 1 (3/2)) 3 =
      World.surfaceColor id (fun a _ => a) ⟨[], []⟩
        (Comp.new 1 ⟨0, Matrix4x4.identity, glass_sphere_material, .sphere⟩
          (Vec4.point 0 0 0) (Vec4.vector 0 0 (-1)) (Vec4.vector 0 0 (-1))
          (Vec4.vector 0 0 1) 1 (3/2)) +
      World.reflected_color id (fun a _ => a) ⟨[], []⟩
        (Comp.new 1 ⟨0, Matrix4x4.identity, glass_sphere_material, .sphere⟩
          (Vec4.point 0 0 0) (Vec4.vector 0 0 (-1)) (Vec4.vector 0 0 (-1))
          (Vec4.vector 0 0 1) 1 (3/2)) 3 *
        Comp.schlick id
          (Comp.new 1 ⟨0, Matrix4x4.identity, glass_sphere_material, .sphere⟩
            (Vec4.point 0 0 0) (Vec4.vector 0 0 (-1)) (Vec4.vector 0 0 (-1))
            (Vec4.vector 0 0 1) 1 (3/2)) +
      World.refracted_color id (fun a _ => a) ⟨[], []⟩
        (Comp.new 1 ⟨0, Matrix4x4.identity, glass_sphere_material, .sphere⟩
          (Vec4.point 0 0 0) (Vec4.vector 0 0 (-1)) (Vec4.vector 0 0 (-1))
          (Vec4.vector 0 0 1) 1 (3/2)) 3 *
        (1 - Comp.schlick id
          (Comp.new 1 ⟨0, Matrix4x4.identity, glass_sphere_material, .sphere⟩
            (Vec4.point 0 0 0) (Vec4.vector 0 0 (-1)) (Vec4.vector 0 0 (-1))
            (Vec4.vector 0 0 1) 1 (3/2))) := by
  exact (C4_shade_hit_schlick_blend id (fun a _ => a) ⟨[], []⟩ _ 3).1
    (by norm_num [Comp.new, glass_sphere_material, Material.default])
    (by norm_num [Comp.new, glass_sphere_material, Material.default])

/-- C1: prepare_computations walks the intersection list maintaining the
container of currently-entered shapes exactly as the spec describes
(n1n2Spec is written from the spec's words and the source's loop agrees
with it whenever the hit occurs in the list), and across four successive
boundary intersections through nested transparent volumes with indices
3/2 and 2 the successive (n1, n2) pairs are (1, 3/2), (3/2, 2), (2, 3/2)
and (3/2, 1). -/
theorem C1_refraction_stack :
    (∀ (self : Intersection) (xs : List Intersection),
      (∃ i ∈ xs, self.object.id = i.object.id ∧ self.t = i.t) →
      n1n2Walk self xs [] (1, 1) = n1n2Spec self xs []) ∧
    (∀ sq : ℚ → ℚ,
      List.map
        (fun i => (Intersection.prepare_computations sq i
          (Ray.new (Vec4.point 0 0 (-4)) (Vec4.vector 0 0 1))
          (some
            [Intersection.new ⟨0, Matrix4x4.identity, { Material.default with refraction := 3/2 }, .sphere⟩ 2,
             Intersection.new ⟨1, Matrix4x4.identity, { Material.default with refraction := 2 }, .sphere⟩ (11/4),
             Intersection.new ⟨1, Matrix4x4.identity, { Material.default with refraction := 2 }, .sphere⟩ (13/4),
             Intersection.new ⟨0, Matrix4x4.identity, { Material.default with refraction := 3/2 }, .sphere⟩ 4])).map
          fun c => (c.n1, c.n2))
        [Intersection.new ⟨0, Matrix4x4.identity, { Material.default with refraction := 3/2 }, .sphere⟩ 2,
         Intersection.new ⟨1, Matrix4x4.identity, { Material.default with refraction := 2 }, .sphere⟩ (11/4),
         Intersection.new ⟨1, Matrix4x4.identity, { Material.default with refraction := 2 }, .sphere⟩ (13/4),
         Intersection.new ⟨0, Matrix4x4.identity, { Material.default with refraction := 3/2 }, .sphere⟩ 4] =
      [some (1, 3/2), some (3/2, 2), some (2, 3/2), some (3/2, 1)]) := by
  constructor
  · intro self xs hfound
    exact n1n2Walk_eq_spec self xs hfound [] (1, 1)
  · intro sq
    norm_num [Intersection.prepare_computations, n1n2Walk, removeFirstById,
      Intersection.new, Comp.new, Material.default, List.map_cons, Option.map_some]

/-- Witness for C1: the source loop and the spec walk agree on the
concrete nested-spheres list with the hit at its head. -/
theorem C1_refraction_stack_witness :
    n1n2Walk
      (Intersection.new ⟨0, Matrix4x4.identity, { Material.default with refraction := 3/2 }, .sphere⟩ 2)
      [Intersection.new ⟨0, Matrix4x4.identity, { Material.default with refraction := 3/2 }, .sphere⟩ 2,
       Intersection.new ⟨1, Matrix4x4.identity, { Material.default with refraction := 2 }, .sphere⟩ (11/4),
       Intersection.new ⟨1, Matrix4x4.identity, { Material.default with refraction := 2 }, .sphere⟩ (13/4),
       Intersection.new ⟨0, Matrix4x4.identity, { Material.default with refraction := 3/2 }, .sphere⟩ 4]
      [] (1, 1) =
    n1n2Spec
      (Intersection.new ⟨0, Matrix4x4.identity, { Material.default with refraction := 3/2 }, .sphere⟩ 2)
      [Intersection.new ⟨0, Matrix4x4.identity, { Material.default with refraction := 3/2 }, .sphere⟩ 2,
       Intersection.new ⟨1, Matrix4x4.identity, { Material.default with refraction := 2 }, .sphere⟩ (11/4),
       Intersection.new ⟨1, Matrix4x4.identity, { Material.default with refraction := 2 }, .sphere⟩ (13/4),
       Intersection.new ⟨0, Matrix4x4.identity, { Material.default with refraction := 3/2 }, .sphere⟩ 4]
      [] :=
  C1_refraction_stack.1 _ _
    ⟨Intersection.new ⟨0, Matrix4x4.identity, { Material.default with refraction := 3/2 }, .sphere⟩ 2,
     List.mem_cons_self _ _, rfl, rfl⟩

/-- C3: Camera::render loops y over 0..vsize-1 and x over 0..hsize-1 with
exclusive upper bounds, so the last row and column are never written: on
a 2-by-2 camera the pixel (1, 1) keeps the canvas's initial value 0 for
every world, whereas the claim requires it to hold the color of
world.color_at(ray_for_pixel(1, 1), 5). -/
theorem C3_render_never_writes_last_row_col
    (sq : ℚ → ℚ) (powf : ℚ → ℚ → ℚ) (cam : Camera) (w : World)
    (h1 : cam.hsize = 2) (h2 : cam.vsize = 2) :
    (Camera.render sq powf cam w).color_at 1 1 = 0 := by
  have ht : toUsize (2 : ℚ) = 2 := by
    unfold toUsize
    norm_num
    decide
  simp only [Camera.render, h1, h2, ht]
  norm_num [Canvas.new, Canvas.set_color, Canvas.color_at, List.range_succ]

/-- Witness for C3 on a concrete 2-by-2 camera and the empty world. -/
theorem C3_render_never_writes_last_row_col_witness :
    (Camera.render id (fun a _ => a)
      ⟨2, 2, 1, Matrix4x4.identity, 1, 1, 1⟩ ⟨[], []⟩).color_at 1 1 = 0 :=
  C3_render_never_writes_last_row_col id (fun a _ => a)
    ⟨2, 2, 1, Matrix4x4.identity, 1, 1, 1⟩ ⟨[], []⟩ rfl rfl

end Raytracer
